import Mathlib

set_option maxRecDepth 16000

/-!
Verification development for the webtop deployment backend
(`webtop_backend_script.py`): a shallow embedding of the manifest
inspector (identity / port extraction), the run-script generator, the
filesystem-backed workload registry with its lifecycle operations
(deploy, stop, cleanup, list), and theorems settling the spec claims.

Conventions:
- Raw uploaded manifest content is a byte string, `List Nat` (each entry a
  byte value).  `extract_user_from_yaml` / `extract_port_from_yaml` first
  decode it as UTF-8 (the Python code calls `.decode('utf-8')` inside a
  `try` block whose failure yields `None`).
- Decoded text is `List Char` (Unicode scalar values, as Python `str`).
  The `re` character classes on `str` are Unicode-aware; they are modelled
  by exact character tables (CPython 3.11, Unicode 14.0.0): `\s` is
  `str.isspace`, `\d` is `str.isdecimal` (category Nd, which comes in
  aligned runs of ten digits valued 0..9), and `\w` is `str.isalnum` plus
  the underscore.  `int()` on a run of decimal digits is positional with
  the per-character digit value, covering non-ASCII digit scripts.
- External processes (docker / docker compose invocations) are oracles:
  function parameters producing an `ExecResult` (exit code, stdout,
  stderr), mirroring `subprocess.run(..., capture_output=True)`.
-/

/-! ### Character classes of the Python regexes

On `str`, CPython compiles `\s` to `str.isspace`, `\d` to `str.isdecimal`
and `\w` to `str.isalnum`-or-underscore, all Unicode-aware.  The three
tables below are those exact character sets. -/

/-- Code points accepted by Python `str.isspace` — equivalently the `re`
class `\s` on `str` (CPython 3.11, Unicode 14.0.0). -/
def pySpaceCodes : List Nat :=
  [0x9, 0xA, 0xB, 0xC, 0xD, 0x1C, 0x1D, 0x1E, 0x1F, 0x20, 0x85, 0xA0, 0x1680, 0x2000, 0x2001, 0x2002, 0x2003, 0x2004, 0x2005, 0x2006, 0x2007, 0x2008, 0x2009, 0x200A, 0x2028, 0x2029, 0x202F, 0x205F, 0x3000]

/-- The zero digit of each aligned run of ten Unicode decimal digits
(category Nd, the `re` class `\d` on `str`); the run starting at `b`
holds the digits of value 0..9 at `b..b+9` (CPython 3.11,
Unicode 14.0.0). -/
def ndZeroBases : List Nat :=
  [0x30, 0x660, 0x6F0, 0x7C0, 0x966, 0x9E6, 0xA66, 0xAE6,
   0xB66, 0xBE6, 0xC66, 0xCE6, 0xD66, 0xDE6, 0xE50, 0xED0,
   0xF20, 0x1040, 0x1090, 0x17E0, 0x1810, 0x1946, 0x19D0, 0x1A80,
   0x1A90, 0x1B50, 0x1BB0, 0x1C40, 0x1C50, 0xA620, 0xA8D0, 0xA900,
   0xA9D0, 0xA9F0, 0xAA50, 0xABF0, 0xFF10, 0x104A0, 0x10D30, 0x11066,
   0x110F0, 0x11136, 0x111D0, 0x112F0, 0x11450, 0x114D0, 0x11650, 0x116C0,
   0x11730, 0x118E0, 0x11950, 0x11C50, 0x11D50, 0x11DA0, 0x16A60, 0x16AC0,
   0x16B50, 0x1D7CE, 0x1D7D8, 0x1D7E2, 0x1D7EC, 0x1D7F6, 0x1E140, 0x1E2F0,
   0x1E950, 0x1FBF0]

/-- The inclusive code-point ranges of the characters accepted by Python
`str.isalnum` (CPython 3.11, Unicode 14.0.0); together with the
underscore these are the `re` class `\w` on `str`. -/
def pyAlnumRanges : List (Nat × Nat) :=
  [(0x30, 0x39), (0x41, 0x5A), (0x61, 0x7A), (0xAA, 0xAA),
   (0xB2, 0xB3), (0xB5, 0xB5), (0xB9, 0xBA), (0xBC, 0xBE),
   (0xC0, 0xD6), (0xD8, 0xF6), (0xF8, 0x2C1), (0x2C6, 0x2D1),
   (0x2E0, 0x2E4), (0x2EC, 0x2EC), (0x2EE, 0x2EE), (0x370, 0x374),
   (0x376, 0x377), (0x37A, 0x37D), (0x37F, 0x37F), (0x386, 0x386),
   (0x388, 0x38A), (0x38C, 0x38C), (0x38E, 0x3A1), (0x3A3, 0x3F5),
   (0x3F7, 0x481), (0x48A, 0x52F), (0x531, 0x556), (0x559, 0x559),
   (0x560, 0x588), (0x5D0, 0x5EA), (0x5EF, 0x5F2), (0x620, 0x64A),
   (0x660, 0x669), (0x66E, 0x66F), (0x671, 0x6D3), (0x6D5, 0x6D5),
   (0x6E5, 0x6E6), (0x6EE, 0x6FC), (0x6FF, 0x6FF), (0x710, 0x710),
   (0x712, 0x72F), (0x74D, 0x7A5), (0x7B1, 0x7B1), (0x7C0, 0x7EA),
   (0x7F4, 0x7F5), (0x7FA, 0x7FA), (0x800, 0x815), (0x81A, 0x81A),
   (0x824, 0x824), (0x828, 0x828), (0x840, 0x858), (0x860, 0x86A),
   (0x870, 0x887), (0x889, 0x88E), (0x8A0, 0x8C9), (0x904, 0x939),
   (0x93D, 0x93D), (0x950, 0x950), (0x958, 0x961), (0x966, 0x96F),
   (0x971, 0x980), (0x985, 0x98C), (0x98F, 0x990), (0x993, 0x9A8),
   (0x9AA, 0x9B0), (0x9B2, 0x9B2), (0x9B6, 0x9B9), (0x9BD, 0x9BD),
   (0x9CE, 0x9CE), (0x9DC, 0x9DD), (0x9DF, 0x9E1), (0x9E6, 0x9F1),
   (0x9F4, 0x9F9), (0x9FC, 0x9FC), (0xA05, 0xA0A), (0xA0F, 0xA10),
   (0xA13, 0xA28), (0xA2A, 0xA30), (0xA32, 0xA33), (0xA35, 0xA36),
   (0xA38, 0xA39), (0xA59, 0xA5C), (0xA5E, 0xA5E), (0xA66, 0xA6F),
   (0xA72, 0xA74), (0xA85, 0xA8D), (0xA8F, 0xA91), (0xA93, 0xAA8),
   (0xAAA, 0xAB0), (0xAB2, 0xAB3), (0xAB5, 0xAB9), (0xABD, 0xABD),
   (0xAD0, 0xAD0), (0xAE0, 0xAE1), (0xAE6, 0xAEF), (0xAF9, 0xAF9),
   (0xB05, 0xB0C), (0xB0F, 0xB10), (0xB13, 0xB28), (0xB2A, 0xB30),
   (0xB32, 0xB33), (0xB35, 0xB39), (0xB3D, 0xB3D), (0xB5C, 0xB5D),
   (0xB5F, 0xB61), (0xB66, 0xB6F), (0xB71, 0xB77), (0xB83, 0xB83),
   (0xB85, 0xB8A), (0xB8E, 0xB90), (0xB92, 0xB95), (0xB99, 0xB9A),
   (0xB9C, 0xB9C), (0xB9E, 0xB9F), (0xBA3, 0xBA4), (0xBA8, 0xBAA),
   (0xBAE, 0xBB9), (0xBD0, 0xBD0), (0xBE6, 0xBF2), (0xC05, 0xC0C),
   (0xC0E, 0xC10), (0xC12, 0xC28), (0xC2A, 0xC39), (0xC3D, 0xC3D),
   (0xC58, 0xC5A), (0xC5D, 0xC5D), (0xC60, 0xC61), (0xC66, 0xC6F),
   (0xC78, 0xC7E), (0xC80, 0xC80), (0xC85, 0xC8C), (0xC8E, 0xC90),
   (0xC92, 0xCA8), (0xCAA, 0xCB3), (0xCB5, 0xCB9), (0xCBD, 0xCBD),
   (0xCDD, 0xCDE), (0xCE0, 0xCE1), (0xCE6, 0xCEF), (0xCF1, 0xCF2),
   (0xD04, 0xD0C), (0xD0E, 0xD10), (0xD12, 0xD3A), (0xD3D, 0xD3D),
   (0xD4E, 0xD4E), (0xD54, 0xD56), (0xD58, 0xD61), (0xD66, 0xD78),
   (0xD7A, 0xD7F), (0xD85, 0xD96), (0xD9A, 0xDB1), (0xDB3, 0xDBB),
   (0xDBD, 0xDBD), (0xDC0, 0xDC6), (0xDE6, 0xDEF), (0xE01, 0xE30),
   (0xE32, 0xE33), (0xE40, 0xE46), (0xE50, 0xE59), (0xE81, 0xE82),
   (0xE84, 0xE84), (0xE86, 0xE8A), (0xE8C, 0xEA3), (0xEA5, 0xEA5),
   (0xEA7, 0xEB0), (0xEB2, 0xEB3), (0xEBD, 0xEBD), (0xEC0, 0xEC4),
   (0xEC6, 0xEC6), (0xED0, 0xED9), (0xEDC, 0xEDF), (0xF00, 0xF00),
   (0xF20, 0xF33), (0xF40, 0xF47), (0xF49, 0xF6C), (0xF88, 0xF8C),
   (0x1000, 0x102A), (0x103F, 0x1049), (0x1050, 0x1055), (0x105A, 0x105D),
   (0x1061, 0x1061), (0x1065, 0x1066), (0x106E, 0x1070), (0x1075, 0x1081),
   (0x108E, 0x108E), (0x1090, 0x1099), (0x10A0, 0x10C5), (0x10C7, 0x10C7),
   (0x10CD, 0x10CD), (0x10D0, 0x10FA), (0x10FC, 0x1248), (0x124A, 0x124D),
   (0x1250, 0x1256), (0x1258, 0x1258), (0x125A, 0x125D), (0x1260, 0x1288),
   (0x128A, 0x128D), (0x1290, 0x12B0), (0x12B2, 0x12B5), (0x12B8, 0x12BE),
   (0x12C0, 0x12C0), (0x12C2, 0x12C5), (0x12C8, 0x12D6), (0x12D8, 0x1310),
   (0x1312, 0x1315), (0x1318, 0x135A), (0x1369, 0x137C), (0x1380, 0x138F),
   (0x13A0, 0x13F5), (0x13F8, 0x13FD), (0x1401, 0x166C), (0x166F, 0x167F),
   (0x1681, 0x169A), (0x16A0, 0x16EA), (0x16EE, 0x16F8), (0x1700, 0x1711),
   (0x171F, 0x1731), (0x1740, 0x1751), (0x1760, 0x176C), (0x176E, 0x1770),
   (0x1780, 0x17B3), (0x17D7, 0x17D7), (0x17DC, 0x17DC), (0x17E0, 0x17E9),
   (0x17F0, 0x17F9), (0x1810, 0x1819), (0x1820, 0x1878), (0x1880, 0x1884),
   (0x1887, 0x18A8), (0x18AA, 0x18AA), (0x18B0, 0x18F5), (0x1900, 0x191E),
   (0x1946, 0x196D), (0x1970, 0x1974), (0x1980, 0x19AB), (0x19B0, 0x19C9),
   (0x19D0, 0x19DA), (0x1A00, 0x1A16), (0x1A20, 0x1A54), (0x1A80, 0x1A89),
   (0x1A90, 0x1A99), (0x1AA7, 0x1AA7), (0x1B05, 0x1B33), (0x1B45, 0x1B4C),
   (0x1B50, 0x1B59), (0x1B83, 0x1BA0), (0x1BAE, 0x1BE5), (0x1C00, 0x1C23),
   (0x1C40, 0x1C49), (0x1C4D, 0x1C7D), (0x1C80, 0x1C88), (0x1C90, 0x1CBA),
   (0x1CBD, 0x1CBF), (0x1CE9, 0x1CEC), (0x1CEE, 0x1CF3), (0x1CF5, 0x1CF6),
   (0x1CFA, 0x1CFA), (0x1D00, 0x1DBF), (0x1E00, 0x1F15), (0x1F18, 0x1F1D),
   (0x1F20, 0x1F45), (0x1F48, 0x1F4D), (0x1F50, 0x1F57), (0x1F59, 0x1F59),
   (0x1F5B, 0x1F5B), (0x1F5D, 0x1F5D), (0x1F5F, 0x1F7D), (0x1F80, 0x1FB4),
   (0x1FB6, 0x1FBC), (0x1FBE, 0x1FBE), (0x1FC2, 0x1FC4), (0x1FC6, 0x1FCC),
   (0x1FD0, 0x1FD3), (0x1FD6, 0x1FDB), (0x1FE0, 0x1FEC), (0x1FF2, 0x1FF4),
   (0x1FF6, 0x1FFC), (0x2070, 0x2071), (0x2074, 0x2079), (0x207F, 0x2089),
   (0x2090, 0x209C), (0x2102, 0x2102), (0x2107, 0x2107), (0x210A, 0x2113),
   (0x2115, 0x2115), (0x2119, 0x211D), (0x2124, 0x2124), (0x2126, 0x2126),
   (0x2128, 0x2128), (0x212A, 0x212D), (0x212F, 0x2139), (0x213C, 0x213F),
   (0x2145, 0x2149), (0x214E, 0x214E), (0x2150, 0x2189), (0x2460, 0x249B),
   (0x24EA, 0x24FF), (0x2776, 0x2793), (0x2C00, 0x2CE4), (0x2CEB, 0x2CEE),
   (0x2CF2, 0x2CF3), (0x2CFD, 0x2CFD), (0x2D00, 0x2D25), (0x2D27, 0x2D27),
   (0x2D2D, 0x2D2D), (0x2D30, 0x2D67), (0x2D6F, 0x2D6F), (0x2D80, 0x2D96),
   (0x2DA0, 0x2DA6), (0x2DA8, 0x2DAE), (0x2DB0, 0x2DB6), (0x2DB8, 0x2DBE),
   (0x2DC0, 0x2DC6), (0x2DC8, 0x2DCE), (0x2DD0, 0x2DD6), (0x2DD8, 0x2DDE),
   (0x2E2F, 0x2E2F), (0x3005, 0x3007), (0x3021, 0x3029), (0x3031, 0x3035),
   (0x3038, 0x303C), (0x3041, 0x3096), (0x309D, 0x309F), (0x30A1, 0x30FA),
   (0x30FC, 0x30FF), (0x3105, 0x312F), (0x3131, 0x318E), (0x3192, 0x3195),
   (0x31A0, 0x31BF), (0x31F0, 0x31FF), (0x3220, 0x3229), (0x3248, 0x324F),
   (0x3251, 0x325F), (0x3280, 0x3289), (0x32B1, 0x32BF), (0x3400, 0x4DBF),
   (0x4E00, 0xA48C), (0xA4D0, 0xA4FD), (0xA500, 0xA60C), (0xA610, 0xA62B),
   (0xA640, 0xA66E), (0xA67F, 0xA69D), (0xA6A0, 0xA6EF), (0xA717, 0xA71F),
   (0xA722, 0xA788), (0xA78B, 0xA7CA), (0xA7D0, 0xA7D1), (0xA7D3, 0xA7D3),
   (0xA7D5, 0xA7D9), (0xA7F2, 0xA801), (0xA803, 0xA805), (0xA807, 0xA80A),
   (0xA80C, 0xA822), (0xA830, 0xA835), (0xA840, 0xA873), (0xA882, 0xA8B3),
   (0xA8D0, 0xA8D9), (0xA8F2, 0xA8F7), (0xA8FB, 0xA8FB), (0xA8FD, 0xA8FE),
   (0xA900, 0xA925), (0xA930, 0xA946), (0xA960, 0xA97C), (0xA984, 0xA9B2),
   (0xA9CF, 0xA9D9), (0xA9E0, 0xA9E4), (0xA9E6, 0xA9FE), (0xAA00, 0xAA28),
   (0xAA40, 0xAA42), (0xAA44, 0xAA4B), (0xAA50, 0xAA59), (0xAA60, 0xAA76),
   (0xAA7A, 0xAA7A), (0xAA7E, 0xAAAF), (0xAAB1, 0xAAB1), (0xAAB5, 0xAAB6),
   (0xAAB9, 0xAABD), (0xAAC0, 0xAAC0), (0xAAC2, 0xAAC2), (0xAADB, 0xAADD),
   (0xAAE0, 0xAAEA), (0xAAF2, 0xAAF4), (0xAB01, 0xAB06), (0xAB09, 0xAB0E),
   (0xAB11, 0xAB16), (0xAB20, 0xAB26), (0xAB28, 0xAB2E), (0xAB30, 0xAB5A),
   (0xAB5C, 0xAB69), (0xAB70, 0xABE2), (0xABF0, 0xABF9), (0xAC00, 0xD7A3),
   (0xD7B0, 0xD7C6), (0xD7CB, 0xD7FB), (0xF900, 0xFA6D), (0xFA70, 0xFAD9),
   (0xFB00, 0xFB06), (0xFB13, 0xFB17), (0xFB1D, 0xFB1D), (0xFB1F, 0xFB28),
   (0xFB2A, 0xFB36), (0xFB38, 0xFB3C), (0xFB3E, 0xFB3E), (0xFB40, 0xFB41),
   (0xFB43, 0xFB44), (0xFB46, 0xFBB1), (0xFBD3, 0xFD3D), (0xFD50, 0xFD8F),
   (0xFD92, 0xFDC7), (0xFDF0, 0xFDFB), (0xFE70, 0xFE74), (0xFE76, 0xFEFC),
   (0xFF10, 0xFF19), (0xFF21, 0xFF3A), (0xFF41, 0xFF5A), (0xFF66, 0xFFBE),
   (0xFFC2, 0xFFC7), (0xFFCA, 0xFFCF), (0xFFD2, 0xFFD7), (0xFFDA, 0xFFDC),
   (0x10000, 0x1000B), (0x1000D, 0x10026), (0x10028, 0x1003A), (0x1003C, 0x1003D),
   (0x1003F, 0x1004D), (0x10050, 0x1005D), (0x10080, 0x100FA), (0x10107, 0x10133),
   (0x10140, 0x10178), (0x1018A, 0x1018B), (0x10280, 0x1029C), (0x102A0, 0x102D0),
   (0x102E1, 0x102FB), (0x10300, 0x10323), (0x1032D, 0x1034A), (0x10350, 0x10375),
   (0x10380, 0x1039D), (0x103A0, 0x103C3), (0x103C8, 0x103CF), (0x103D1, 0x103D5),
   (0x10400, 0x1049D), (0x104A0, 0x104A9), (0x104B0, 0x104D3), (0x104D8, 0x104FB),
   (0x10500, 0x10527), (0x10530, 0x10563), (0x10570, 0x1057A), (0x1057C, 0x1058A),
   (0x1058C, 0x10592), (0x10594, 0x10595), (0x10597, 0x105A1), (0x105A3, 0x105B1),
   (0x105B3, 0x105B9), (0x105BB, 0x105BC), (0x10600, 0x10736), (0x10740, 0x10755),
   (0x10760, 0x10767), (0x10780, 0x10785), (0x10787, 0x107B0), (0x107B2, 0x107BA),
   (0x10800, 0x10805), (0x10808, 0x10808), (0x1080A, 0x10835), (0x10837, 0x10838),
   (0x1083C, 0x1083C), (0x1083F, 0x10855), (0x10858, 0x10876), (0x10879, 0x1089E),
   (0x108A7, 0x108AF), (0x108E0, 0x108F2), (0x108F4, 0x108F5), (0x108FB, 0x1091B),
   (0x10920, 0x10939), (0x10980, 0x109B7), (0x109BC, 0x109CF), (0x109D2, 0x10A00),
   (0x10A10, 0x10A13), (0x10A15, 0x10A17), (0x10A19, 0x10A35), (0x10A40, 0x10A48),
   (0x10A60, 0x10A7E), (0x10A80, 0x10A9F), (0x10AC0, 0x10AC7), (0x10AC9, 0x10AE4),
   (0x10AEB, 0x10AEF), (0x10B00, 0x10B35), (0x10B40, 0x10B55), (0x10B58, 0x10B72),
   (0x10B78, 0x10B91), (0x10BA9, 0x10BAF), (0x10C00, 0x10C48), (0x10C80, 0x10CB2),
   (0x10CC0, 0x10CF2), (0x10CFA, 0x10D23), (0x10D30, 0x10D39), (0x10E60, 0x10E7E),
   (0x10E80, 0x10EA9), (0x10EB0, 0x10EB1), (0x10F00, 0x10F27), (0x10F30, 0x10F45),
   (0x10F51, 0x10F54), (0x10F70, 0x10F81), (0x10FB0, 0x10FCB), (0x10FE0, 0x10FF6),
   (0x11003, 0x11037), (0x11052, 0x1106F), (0x11071, 0x11072), (0x11075, 0x11075),
   (0x11083, 0x110AF), (0x110D0, 0x110E8), (0x110F0, 0x110F9), (0x11103, 0x11126),
   (0x11136, 0x1113F), (0x11144, 0x11144), (0x11147, 0x11147), (0x11150, 0x11172),
   (0x11176, 0x11176), (0x11183, 0x111B2), (0x111C1, 0x111C4), (0x111D0, 0x111DA),
   (0x111DC, 0x111DC), (0x111E1, 0x111F4), (0x11200, 0x11211), (0x11213, 0x1122B),
   (0x11280, 0x11286), (0x11288, 0x11288), (0x1128A, 0x1128D), (0x1128F, 0x1129D),
   (0x1129F, 0x112A8), (0x112B0, 0x112DE), (0x112F0, 0x112F9), (0x11305, 0x1130C),
   (0x1130F, 0x11310), (0x11313, 0x11328), (0x1132A, 0x11330), (0x11332, 0x11333),
   (0x11335, 0x11339), (0x1133D, 0x1133D), (0x11350, 0x11350), (0x1135D, 0x11361),
   (0x11400, 0x11434), (0x11447, 0x1144A), (0x11450, 0x11459), (0x1145F, 0x11461),
   (0x11480, 0x114AF), (0x114C4, 0x114C5), (0x114C7, 0x114C7), (0x114D0, 0x114D9),
   (0x11580, 0x115AE), (0x115D8, 0x115DB), (0x11600, 0x1162F), (0x11644, 0x11644),
   (0x11650, 0x11659), (0x11680, 0x116AA), (0x116B8, 0x116B8), (0x116C0, 0x116C9),
   (0x11700, 0x1171A), (0x11730, 0x1173B), (0x11740, 0x11746), (0x11800, 0x1182B),
   (0x118A0, 0x118F2), (0x118FF, 0x11906), (0x11909, 0x11909), (0x1190C, 0x11913),
   (0x11915, 0x11916), (0x11918, 0x1192F), (0x1193F, 0x1193F), (0x11941, 0x11941),
   (0x11950, 0x11959), (0x119A0, 0x119A7), (0x119AA, 0x119D0), (0x119E1, 0x119E1),
   (0x119E3, 0x119E3), (0x11A00, 0x11A00), (0x11A0B, 0x11A32), (0x11A3A, 0x11A3A),
   (0x11A50, 0x11A50), (0x11A5C, 0x11A89), (0x11A9D, 0x11A9D), (0x11AB0, 0x11AF8),
   (0x11C00, 0x11C08), (0x11C0A, 0x11C2E), (0x11C40, 0x11C40), (0x11C50, 0x11C6C),
   (0x11C72, 0x11C8F), (0x11D00, 0x11D06), (0x11D08, 0x11D09), (0x11D0B, 0x11D30),
   (0x11D46, 0x11D46), (0x11D50, 0x11D59), (0x11D60, 0x11D65), (0x11D67, 0x11D68),
   (0x11D6A, 0x11D89), (0x11D98, 0x11D98), (0x11DA0, 0x11DA9), (0x11EE0, 0x11EF2),
   (0x11FB0, 0x11FB0), (0x11FC0, 0x11FD4), (0x12000, 0x12399), (0x12400, 0x1246E),
   (0x12480, 0x12543), (0x12F90, 0x12FF0), (0x13000, 0x1342E), (0x14400, 0x14646),
   (0x16800, 0x16A38), (0x16A40, 0x16A5E), (0x16A60, 0x16A69), (0x16A70, 0x16ABE),
   (0x16AC0, 0x16AC9), (0x16AD0, 0x16AED), (0x16B00, 0x16B2F), (0x16B40, 0x16B43),
   (0x16B50, 0x16B59), (0x16B5B, 0x16B61), (0x16B63, 0x16B77), (0x16B7D, 0x16B8F),
   (0x16E40, 0x16E96), (0x16F00, 0x16F4A), (0x16F50, 0x16F50), (0x16F93, 0x16F9F),
   (0x16FE0, 0x16FE1), (0x16FE3, 0x16FE3), (0x17000, 0x187F7), (0x18800, 0x18CD5),
   (0x18D00, 0x18D08), (0x1AFF0, 0x1AFF3), (0x1AFF5, 0x1AFFB), (0x1AFFD, 0x1AFFE),
   (0x1B000, 0x1B122), (0x1B150, 0x1B152), (0x1B164, 0x1B167), (0x1B170, 0x1B2FB),
   (0x1BC00, 0x1BC6A), (0x1BC70, 0x1BC7C), (0x1BC80, 0x1BC88), (0x1BC90, 0x1BC99),
   (0x1D2E0, 0x1D2F3), (0x1D360, 0x1D378), (0x1D400, 0x1D454), (0x1D456, 0x1D49C),
   (0x1D49E, 0x1D49F), (0x1D4A2, 0x1D4A2), (0x1D4A5, 0x1D4A6), (0x1D4A9, 0x1D4AC),
   (0x1D4AE, 0x1D4B9), (0x1D4BB, 0x1D4BB), (0x1D4BD, 0x1D4C3), (0x1D4C5, 0x1D505),
   (0x1D507, 0x1D50A), (0x1D50D, 0x1D514), (0x1D516, 0x1D51C), (0x1D51E, 0x1D539),
   (0x1D53B, 0x1D53E), (0x1D540, 0x1D544), (0x1D546, 0x1D546), (0x1D54A, 0x1D550),
   (0x1D552, 0x1D6A5), (0x1D6A8, 0x1D6C0), (0x1D6C2, 0x1D6DA), (0x1D6DC, 0x1D6FA),
   (0x1D6FC, 0x1D714), (0x1D716, 0x1D734), (0x1D736, 0x1D74E), (0x1D750, 0x1D76E),
   (0x1D770, 0x1D788), (0x1D78A, 0x1D7A8), (0x1D7AA, 0x1D7C2), (0x1D7C4, 0x1D7CB),
   (0x1D7CE, 0x1D7FF), (0x1DF00, 0x1DF1E), (0x1E100, 0x1E12C), (0x1E137, 0x1E13D),
   (0x1E140, 0x1E149), (0x1E14E, 0x1E14E), (0x1E290, 0x1E2AD), (0x1E2C0, 0x1E2EB),
   (0x1E2F0, 0x1E2F9), (0x1E7E0, 0x1E7E6), (0x1E7E8, 0x1E7EB), (0x1E7ED, 0x1E7EE),
   (0x1E7F0, 0x1E7FE), (0x1E800, 0x1E8C4), (0x1E8C7, 0x1E8CF), (0x1E900, 0x1E943),
   (0x1E94B, 0x1E94B), (0x1E950, 0x1E959), (0x1EC71, 0x1ECAB), (0x1ECAD, 0x1ECAF),
   (0x1ECB1, 0x1ECB4), (0x1ED01, 0x1ED2D), (0x1ED2F, 0x1ED3D), (0x1EE00, 0x1EE03),
   (0x1EE05, 0x1EE1F), (0x1EE21, 0x1EE22), (0x1EE24, 0x1EE24), (0x1EE27, 0x1EE27),
   (0x1EE29, 0x1EE32), (0x1EE34, 0x1EE37), (0x1EE39, 0x1EE39), (0x1EE3B, 0x1EE3B),
   (0x1EE42, 0x1EE42), (0x1EE47, 0x1EE47), (0x1EE49, 0x1EE49), (0x1EE4B, 0x1EE4B),
   (0x1EE4D, 0x1EE4F), (0x1EE51, 0x1EE52), (0x1EE54, 0x1EE54), (0x1EE57, 0x1EE57),
   (0x1EE59, 0x1EE59), (0x1EE5B, 0x1EE5B), (0x1EE5D, 0x1EE5D), (0x1EE5F, 0x1EE5F),
   (0x1EE61, 0x1EE62), (0x1EE64, 0x1EE64), (0x1EE67, 0x1EE6A), (0x1EE6C, 0x1EE72),
   (0x1EE74, 0x1EE77), (0x1EE79, 0x1EE7C), (0x1EE7E, 0x1EE7E), (0x1EE80, 0x1EE89),
   (0x1EE8B, 0x1EE9B), (0x1EEA1, 0x1EEA3), (0x1EEA5, 0x1EEA9), (0x1EEAB, 0x1EEBB),
   (0x1F100, 0x1F10C), (0x1FBF0, 0x1FBF9), (0x20000, 0x2A6DF), (0x2A700, 0x2B738),
   (0x2B740, 0x2B81D), (0x2B820, 0x2CEA1), (0x2CEB0, 0x2EBE0), (0x2F800, 0x2FA1D),
   (0x30000, 0x3134A)]

/-- Is code point `n` accepted by Python `str.isalnum`? -/
def pyAlnumAt (n : Nat) : Bool :=
  pyAlnumRanges.any (fun r => r.1 ≤ n && n ≤ r.2)

/-- The Python regex class `\w` on `str`: `str.isalnum` or underscore. -/
def isPyWordChar (c : Char) : Bool := pyAlnumAt c.toNat || c == '_'

/-- Is code point `n` a Unicode decimal digit (Python `str.isdecimal`)? -/
def isPyDigitNat (n : Nat) : Bool :=
  ndZeroBases.any (fun b => b ≤ n && n ≤ b + 9)

/-- The Python regex class `\d` on `str`. -/
def isPyDigit (c : Char) : Bool := isPyDigitNat c.toNat

/-- The decimal value of a Unicode decimal digit (0 on non-digits):
each Nd run starting at `b` holds the digits valued 0..9 at `b..b+9`. -/
def pyDecimalVal (c : Char) : Nat :=
  match ndZeroBases.find? (fun b => b ≤ c.toNat && c.toNat ≤ b + 9) with
  | some b => c.toNat - b
  | none => 0

/-- Is code point `n` accepted by Python `str.isspace`? -/
def isPySpaceNat (n : Nat) : Bool := pySpaceCodes.any (fun m => m == n)

/-- The Python regex class `\s` on `str`. -/
def isPySpace (c : Char) : Bool := isPySpaceNat c.toNat

/-! ### Literal-prefix stripping (regex literal parts) -/

/-- Strip a literal prefix from a character list; `some rest` on success.
This is the matcher for the literal parts of the two regexes. -/
def stripPre : List Char → List Char → Option (List Char)
  | [], s => some s
  | _ :: _, [] => none
  | p :: ps, c :: cs => if p == c then stripPre ps cs else none

/-! ### Strict UTF-8 decoding (`bytes.decode('utf-8')`) -/

/-- Is a byte a UTF-8 continuation byte (`0x80..0xBF`)? -/
def contByte (b : Nat) : Bool := 0x80 ≤ b && b < 0xC0

/-- Strict UTF-8 decoder over byte values, mirroring Python's
`bytes.decode('utf-8')`: rejects stray continuation bytes, truncated
sequences, overlong encodings, surrogates and code points above
`0x10FFFF`.  Returns `none` exactly when Python raises
`UnicodeDecodeError`. -/
def utf8Decode : List Nat → Option (List Char)
  | [] => some []
  | b :: bs =>
    if b < 0x80 then
      (utf8Decode bs).map (fun cs => Char.ofNat b :: cs)
    else if b < 0xC2 then none
    else if b < 0xE0 then
      match bs with
      | b1 :: bs1 =>
        if contByte b1 then
          (utf8Decode bs1).map (fun cs => Char.ofNat ((b - 0xC0) * 0x40 + (b1 - 0x80)) :: cs)
        else none
      | [] => none
    else if b < 0xF0 then
      match bs with
      | b1 :: b2 :: bs2 =>
        if contByte b1 && contByte b2 then
          let cp := (b - 0xE0) * 0x1000 + (b1 - 0x80) * 0x40 + (b2 - 0x80)
          if cp < 0x800 then none
          else if 0xD800 ≤ cp && cp < 0xE000 then none
          else (utf8Decode bs2).map (fun cs => Char.ofNat cp :: cs)
        else none
      | _ => none
    else if b < 0xF5 then
      match bs with
      | b1 :: b2 :: b3 :: bs3 =>
        if contByte b1 && contByte b2 && contByte b3 then
          let cp := (b - 0xF0) * 0x40000 + (b1 - 0x80) * 0x1000 +
                    (b2 - 0x80) * 0x40 + (b3 - 0x80)
          if cp < 0x10000 then none
          else if 0x10FFFF < cp then none
          else (utf8Decode bs3).map (fun cs => Char.ofNat cp :: cs)
        else none
      | _ => none
    else none

/-- Byte values of an ASCII string (test-input helper for stating claims
about concrete manifests). -/
def asciiBytes (s : String) : List Nat := s.data.map (fun c => c.toNat)

/-! ### Identity extraction: `extract_user_from_yaml`

Python: `re.search(r'container_name:\s*webtop-ubuntu-xfce-(\w+)', content)`,
returning `match.group(1)` or `None`.  Because the character after `\s*`
in the pattern is the non-space letter `w` and `(\w+)` is at the end of
the pattern, the greedy leftmost-match semantics of `re.search` reduce to:
scan positions left to right; at each position match the literal
`container_name:`, skip the maximal whitespace run, match the literal
`webtop-ubuntu-xfce-`, then capture the maximal nonempty word-char run. -/

/-- The fixed literal before the whitespace run. -/
def userPrefixLit : List Char := "container_name:".data

/-- The fixed naming-convention literal before the captured token. -/
def userNeedleLit : List Char := "webtop-ubuntu-xfce-".data

/-- Try to match the identity pattern anchored at the head of `s`,
returning the captured token. -/
def tryUserAt (s : List Char) : Option (List Char) :=
  match stripPre userPrefixLit s with
  | none => none
  | some r1 =>
    let r2 := r1.dropWhile isPySpace
    match stripPre userNeedleLit r2 with
    | none => none
    | some r3 =>
      let tok := r3.takeWhile isPyWordChar
      if tok.isEmpty then none else some tok

/-- Leftmost search for the identity pattern (the `re.search` scan). -/
def searchUser : List Char → Option (List Char)
  | [] => none
  | c :: cs =>
    match tryUserAt (c :: cs) with
    | some t => some t
    | none => searchUser cs

/-- `extract_user_from_yaml`: decode bytes as UTF-8 and search for the
naming-convention field; any failure yields `None`. -/
def extract_user_from_yaml (bs : List Nat) : Option (List Char) :=
  (utf8Decode bs).bind searchUser

/-! ### Port extraction: `extract_port_from_yaml`

Python: `re.search(r'-\s*(\d+):3000', content)`, returning
`int(match.group(1))` or `None`.  Again the classes at the greedy
boundaries are disjoint (space vs digit, digit vs `:`), so leftmost
greedy matching reduces to maximal-munch scanning. -/

/-- The fixed literal after the captured digits. -/
def portTailLit : List Char := ":3000".data

/-- Try to match the port pattern anchored at the head of `s`, returning
the captured digit run. -/
def tryPortAt (s : List Char) : Option (List Char) :=
  match stripPre ['-'] s with
  | none => none
  | some r1 =>
    let r2 := r1.dropWhile isPySpace
    let ds := r2.takeWhile isPyDigit
    if ds.isEmpty then none
    else
      match stripPre portTailLit (r2.dropWhile isPyDigit) with
      | some _ => some ds
      | none => none

/-- Leftmost search for the port pattern. -/
def searchPortDigits : List Char → Option (List Char)
  | [] => none
  | c :: cs =>
    match tryPortAt (c :: cs) with
    | some t => some t
    | none => searchPortDigits cs

/-- The value of a run of decimal digits: Python's `int` on the captured
group is positional with the per-character digit value (so non-ASCII
decimal digits convert too). -/
def digitsToNat (ds : List Char) : Nat :=
  ds.foldl (fun a c => a * 10 + pyDecimalVal c) 0

/-- `extract_port_from_yaml`: decode bytes as UTF-8, search for the port
mapping pattern, and convert the first captured digit run; any failure
yields `None`. -/
def extract_port_from_yaml (bs : List Nat) : Option Nat :=
  (utf8Decode bs).bind (fun s => (searchPortDigits s).map digitsToNat)

/-! ### Pattern-occurrence predicates (the spec's view of the regexes) -/

/-- The identity pattern occurs in `s` at position `i` (the index where
the literal `container_name:` starts) capturing token `tok`. -/
def UserOccAt (s : List Char) (i : Nat) (tok : List Char) : Prop :=
  ∃ pre ws rest, s = pre ++ userPrefixLit ++ ws ++ userNeedleLit ++ tok ++ rest ∧
    pre.length = i ∧ (∀ c ∈ ws, isPySpace c) ∧
    tok ≠ [] ∧ (∀ c ∈ tok, isPyWordChar c)

/-- As `UserOccAt`, with the captured token maximal: the occurrence is not
followed by a further word character (the `\w+` capture is greedy). -/
def UserOccMaxAt (s : List Char) (i : Nat) (tok : List Char) : Prop :=
  ∃ pre ws rest, s = pre ++ userPrefixLit ++ ws ++ userNeedleLit ++ tok ++ rest ∧
    pre.length = i ∧ (∀ c ∈ ws, isPySpace c) ∧
    tok ≠ [] ∧ (∀ c ∈ tok, isPyWordChar c) ∧
    (∀ c, rest.head? = some c → isPyWordChar c = false)

/-- The port pattern occurs in `s` at position `i` (the index of the `-`)
capturing digit run `ds`. -/
def PortOccAt (s : List Char) (i : Nat) (ds : List Char) : Prop :=
  ∃ pre ws rest, s = pre ++ ['-'] ++ ws ++ ds ++ portTailLit ++ rest ∧
    pre.length = i ∧ (∀ c ∈ ws, isPySpace c) ∧
    ds ≠ [] ∧ (∀ c ∈ ds, isPyDigit c)

/-! ### Filename sanitization (external collaborator) -/

/-- Characters werkzeug's sanitizer keeps: `[A-Za-z0-9_.-]`. -/
def isSafeFilenameChar (c : Char) : Bool :=
  c.isAlphanum || c == '_' || c == '.' || c == '-'

/-- Characters stripped from both ends by the sanitizer. -/
def isDotOrUnderscore (c : Char) : Bool := c == '.' || c == '_'

/-- Replace each maximal whitespace run by a single underscore
(the sanitizer's `"_".join(filename.split())` step); a trailing run is
dropped. -/
def squashWs : List Char → List Char
  | [] => []
  | [c] => if isPySpace c then [] else [c]
  | c :: c2 :: cs =>
    if isPySpace c then
      if isPySpace c2 then squashWs (c2 :: cs)
      else '_' :: squashWs (c2 :: cs)
    else c :: squashWs (c2 :: cs)

/-- Strip leading characters satisfying `p`. -/
def lstripP (p : Char → Bool) (l : List Char) : List Char := l.dropWhile p

/-- Strip trailing characters satisfying `p`. -/
def rstripP (p : Char → Bool) (l : List Char) : List Char :=
  (l.reverse.dropWhile p).reverse

/-- Modelled from the spec: `secure_filename` (werkzeug) is an external
collaborator — §1 places "filename sanitization" out of scope and §4.2
requires only that artifact filenames "collapse to a safe charset, reject
path-traversal sequences".  This mirrors werkzeug's behaviour on ASCII
input: path separators become word separators, whitespace runs collapse
to `_`, characters outside `[A-Za-z0-9_.-]` are dropped, and leading and
trailing `.` / `_` are stripped. -/
def secure_filename (s : String) : String :=
  let seps := s.data.map (fun c => if c == '/' || c == '\\' then ' ' else c)
  let joined := squashWs (seps.dropWhile isPySpace)
  let kept := joined.filter isSafeFilenameChar
  String.mk (rstripP isDotOrUnderscore (lstripP isDotOrUnderscore kept))

/-! ### Paths -/

/-- Prefix test on strings via their character lists (Python's
`str.startswith`). -/
def strStarts (pre s : String) : Bool := pre.data.isPrefixOf s.data

/-- `os.path.join(d, n)` for a single join on POSIX: an absolute second
component discards the first. -/
def joinPath (d n : String) : String :=
  if strStarts "/" n then n else d ++ "/" ++ n

/-- The upload root (`UPLOAD_DIR` in the source). -/
def UPLOAD_DIR : String := "/opt/webtops/uploads"

/-! ### Run-script generation (`deploy_webtop`, the `f.write` sequence)

The script file content is the concatenation, in program order, of the
exact strings passed to `f.write`.  `runScriptWrites` is that sequence of
writes; `runScript` is the resulting file text. -/

/-- The six writes of one build-and-check block for the `i`-th build file
(`enumerate(saved_files["dockerfiles"], 1)` supplies `i`). -/
def buildStepWrites (webtop_id : String) (i : Nat) (dockerfile : String) : List String :=
  let image_tag := "webtop-custom-" ++ webtop_id ++ "-" ++ toString i
  ["echo \x27Building Docker image: " ++ image_tag ++ "\x27\n",
   "docker build -f " ++ dockerfile ++ " -t " ++ image_tag ++ " .\n",
   "if [ $? -ne 0 ]; then\n",
   "    echo \x27Error: Failed to build " ++ image_tag ++ "\x27\n",
   "    exit 1\n",
   "fi\n\n"]

/-- The writes of the docker-compose bring-up step with its check:
a success diagnostic on exit code zero, `exit 1` otherwise. -/
def composeUpWrites (yaml_filename webtop_id : String) : List String :=
  ["# Launch Docker Compose\n",
   "echo \x27Starting Docker Compose with " ++ yaml_filename ++ "\x27\n",
   "docker compose -f " ++ yaml_filename ++ " up -d\n",
   "if [ $? -eq 0 ]; then\n",
   "    echo \x27Webtop deployment successful for user: " ++ webtop_id ++ "\x27\n",
   "else\n",
   "    echo \x27Error: Docker Compose failed\x27\n",
   "    exit 1\n",
   "fi\n"]

/-- The full `f.write` sequence producing `run.sh`. -/
def runScriptWrites (webtop_id webtop_dir yaml_filename : String)
    (dockerfiles : List String) : List String :=
  (["#!/bin/bash\n",
    "# Webtop deployment script for user: " ++ webtop_id ++ "\n",
    "# Generated automatically by Webtop API\n\n",
    "cd " ++ webtop_dir ++ "\n\n"]
   ++ (if dockerfiles.isEmpty then []
       else "# Build custom Docker images\n" ::
         ((List.enumFrom 1 dockerfiles).map
           (fun p => buildStepWrites webtop_id p.1 p.2)).flatten))
  ++ composeUpWrites yaml_filename webtop_id

/-- The generated `run.sh` text. -/
def runScript (webtop_id webtop_dir yaml_filename : String)
    (dockerfiles : List String) : String :=
  String.join (runScriptWrites webtop_id webtop_dir yaml_filename dockerfiles)

/-! ### Filesystem registry model

The registry is the upload root's directory tree: a list of workload
directories keyed by directory name, each a list of files keyed by file
name.  Directory existence is the sole registry signal (§3). -/

/-- A saved file's content: raw uploaded bytes or generated text. -/
inductive FileContent where
  | bytes (bs : List Nat)
  | text (s : String)
deriving DecidableEq

/-- One workload directory: file name to content, in creation order. -/
abbrev DirD : Type := List (String × FileContent)

/-- The upload root: directory name to directory, in creation order. -/
abbrev FS : Type := List (String × DirD)

/-- Look up a workload directory by name (`os.path.exists` / `os.listdir`). -/
def fsGetDir (fs : FS) (name : String) : Option DirD :=
  (fs.find? (fun e => e.1 == name)).map (fun e => e.2)

/-- Create-or-replace a workload directory. -/
def fsSetDir (fs : FS) (name : String) (d : DirD) : FS :=
  if fs.any (fun e => e.1 == name) then
    fs.map (fun e => if e.1 == name then (name, d) else e)
  else fs ++ [(name, d)]

/-- Remove a workload directory tree (`shutil.rmtree`). -/
def fsEraseDir (fs : FS) (name : String) : FS :=
  fs.filter (fun e => ¬(e.1 == name))

/-- Write a file into a directory, silently overwriting an existing file
of the same name. -/
def dirWrite (d : DirD) (n : String) (c : FileContent) : DirD :=
  if d.any (fun e => e.1 == n) then
    d.map (fun e => if e.1 == n then (n, c) else e)
  else d ++ [(n, c)]

/-- Result of one external command invocation
(`subprocess.run(..., capture_output=True, text=True)`). -/
structure ExecResult where
  returncode : Int
  stdout : String
  stderr : String

/-- An oracle for `docker compose -f <yaml_path> down` run with a working
directory: the external container runtime (out of scope, §6). -/
def ComposeDownOracle : Type := String → String → ExecResult

/-- An oracle for `docker ps --filter name=<container> --format ...`,
returning captured stdout for a container-name filter. -/
def DockerPsOracle : Type := String → String

/-! ### Deploy (`deploy_webtop`) -/

/-- One uploaded file of a multipart request: the client-supplied
filename (possibly absent or empty) and raw content bytes. -/
structure UploadFile where
  filename : Option String
  content : List Nat

/-- A deploy request after transport decoding: the `docker-compose`
field, the `dockerfile-*` fields in sorted key order, and the
`resource-*` fields in sorted key order.  (Requests with no files or no
`docker-compose` field are rejected with 400 before this logic runs.) -/
structure DeployRequest where
  compose : UploadFile
  dockerfiles : List UploadFile
  resources : List UploadFile

/-- `filename or default` (Python `or`: `None` and `""` both fall back). -/
def filenameOr (f : Option String) (dflt : String) : String :=
  match f with
  | some s => if s.isEmpty then dflt else s
  | none => dflt

/-- `webtop_id` after the fallback: `if not webtop_id: "default_user"`. -/
def idOrDefault (u : Option (List Char)) : String :=
  match u with
  | some t => if t.isEmpty then "default_user" else String.mk t
  | none => "default_user"

/-- The sanitized name under which the `i`-th build file (0-based, with
`dockerfile_count = i` at that point) is saved:
`secure_filename(dockerfile.filename or f"Dockerfile.{count + 1}")`. -/
def dockerfileSavedName (count : Nat) (f : UploadFile) : String :=
  secure_filename (filenameOr f.filename ("Dockerfile." ++ toString (count + 1)))

/-- The sanitized name under which the `i`-th resource file is saved:
`secure_filename(resource.filename or f"resource_{count + 1}")`. -/
def resourceSavedName (count : Nat) (f : UploadFile) : String :=
  secure_filename (filenameOr f.filename ("resource_" ++ toString (count + 1)))

/-- Saved names of all build files, in save order. -/
def savedDockerfileNames (dfs : List UploadFile) : List String :=
  (List.enumFrom 0 dfs).map (fun p => dockerfileSavedName p.1 p.2)

/-- Saved names of all resource files, in save order. -/
def savedResourceNames (rs : List UploadFile) : List String :=
  (List.enumFrom 0 rs).map (fun p => resourceSavedName p.1 p.2)

/-- The `saved_files` dictionary of the deploy response. -/
structure SavedFiles where
  yaml : String
  dockerfiles : List String
  resources : List String
deriving DecidableEq

/-- The success payload of `POST /deploy` (the launcher's process id is
out of scope: the child process is external). -/
structure DeployResponse where
  status : String
  webtop_dir : String
  webtop_id : String
  port : Option Nat
  files : SavedFiles
  container_name : String

/-- Everything a deploy produces: the updated registry, the response,
the exact paths handed to the save calls (in order: manifest, build
files, resources, `run.sh`), and the generated script text. -/
structure DeployResult where
  fs : FS
  resp : DeployResponse
  savedPaths : List String
  script : String

/-- `deploy_webtop`, the success path of the endpoint (its `except`
boundary converts any failure to a 500 response; the registry logic is
the part modelled).  Transcribes lines 161-270 of the source. -/
def deploy_webtop (fs : FS) (req : DeployRequest) : DeployResult :=
  let yaml_filename := secure_filename (filenameOr req.compose.filename "docker-compose.yaml")
  let webtop_id := idOrDefault (extract_user_from_yaml req.compose.content)
  let port := extract_port_from_yaml req.compose.content
  let dirName := "webtop_" ++ webtop_id
  let webtop_dir := joinPath UPLOAD_DIR dirName
  let d0 := (fsGetDir fs dirName).getD []
  let yaml_path := joinPath webtop_dir yaml_filename
  let d1 := dirWrite d0 yaml_filename (FileContent.bytes req.compose.content)
  let dnames := savedDockerfileNames req.dockerfiles
  let d2 := (dnames.zip (req.dockerfiles.map (fun f => f.content))).foldl
    (fun d p => dirWrite d p.1 (FileContent.bytes p.2)) d1
  let rnames := savedResourceNames req.resources
  let d3 := (rnames.zip (req.resources.map (fun f => f.content))).foldl
    (fun d p => dirWrite d p.1 (FileContent.bytes p.2)) d2
  let script := runScript webtop_id webtop_dir yaml_filename dnames
  let run_sh_path := joinPath webtop_dir "run.sh"
  let d4 := dirWrite d3 "run.sh" (FileContent.text script)
  { fs := fsSetDir fs dirName d4
    resp :=
      { status := "success"
        webtop_dir := webtop_dir
        webtop_id := webtop_id
        port := port
        files := { yaml := yaml_filename, dockerfiles := dnames, resources := rnames }
        container_name := "webtop-ubuntu-xfce-" ++ webtop_id }
    savedPaths := yaml_path :: (dnames.map (joinPath webtop_dir) ++
      rnames.map (joinPath webtop_dir) ++ [run_sh_path])
    script := script }

/-! ### Stop (`stop_webtop`) -/

/-- Suffix test on strings via their character lists (Python's
`str.endswith`). -/
def strEnds (suf s : String) : Bool := suf.data.isSuffixOf s.data

/-- `f.endswith(('.yaml', '.yml'))`. -/
def yamlLike (n : String) : Bool := strEnds ".yaml" n || strEnds ".yml" n

/-- The structured response of `POST /deploy/stop/<id>`: HTTP code,
status discriminator, message, and the captured stream fields present in
the respective branch. -/
structure StopResponse where
  code : Nat
  status : String
  message : String
  output : Option String
  error : Option String
deriving DecidableEq

/-- `stop_webtop`: require the workload directory (else 404), require a
manifest-like file in it (else 404), then run
`docker compose -f <yaml_path> down` and report its outcome. -/
def stop_webtop (fs : FS) (composeDown : ComposeDownOracle) (webtop_id : String) :
    StopResponse :=
  let dirName := "webtop_" ++ webtop_id
  let webtop_dir := joinPath UPLOAD_DIR dirName
  match fsGetDir fs dirName with
  | none =>
    { code := 404, status := "error",
      message := "Webtop directory not found: " ++ webtop_id,
      output := none, error := none }
  | some d =>
    match (d.map (fun e => e.1)).filter yamlLike with
    | [] =>
      { code := 404, status := "error",
        message := "No YAML file found in webtop directory: " ++ webtop_id,
        output := none, error := none }
    | y :: _ =>
      let r := composeDown (joinPath webtop_dir y) webtop_dir
      if r.returncode == 0 then
        { code := 200, status := "success",
          message := "Webtop stopped: " ++ webtop_id,
          output := some r.stdout, error := none }
      else
        { code := 500, status := "error",
          message := "Failed to stop webtop",
          output := none, error := some r.stderr }

/-! ### Cleanup (`cleanup_webtop`) -/

/-- The structured response of `DELETE /deploy/cleanup/<id>`. -/
structure CleanupResponse where
  code : Nat
  status : String
  message : String
deriving DecidableEq

/-- `cleanup_webtop`: 404 if the workload directory is absent (no state
change); otherwise best-effort `docker compose down` (its result is
discarded) and then `shutil.rmtree` of the directory. -/
def cleanup_webtop (fs : FS) (composeDown : ComposeDownOracle) (webtop_id : String) :
    FS × CleanupResponse :=
  let dirName := "webtop_" ++ webtop_id
  let webtop_dir := joinPath UPLOAD_DIR dirName
  match fsGetDir fs dirName with
  | none =>
    (fs, { code := 404, status := "error",
           message := "Webtop directory not found: " ++ webtop_id })
  | some d =>
    let _down := match (d.map (fun e => e.1)).filter yamlLike with
      | y :: _ => some (composeDown (joinPath webtop_dir y) webtop_dir)
      | [] => none
    (fsEraseDir fs dirName,
     { code := 200, status := "success",
       message := "Webtop cleaned up: " ++ webtop_id })

/-! ### List (`list_webtops`) -/

/-- One entry of the list response. -/
structure WebtopEntry where
  webtop_id : String
  directory : String
  is_running : Bool
  container_name : Option String

/-- The payload of `GET /deploy/list`. -/
structure ListResponse where
  status : String
  webtops : List WebtopEntry
  count : Nat

/-- `list_webtops`: one entry per upload-root child whose name starts
with `webtop_`; for each, a `docker ps` name filter decides
`is_running`; `count` is the length of the collected list.  (The upload
root itself always exists: it is created at process start.) -/
def list_webtops (fs : FS) (dockerPs : DockerPsOracle) : ListResponse :=
  let webtops := (fs.filter (fun e => strStarts "webtop_" e.1)).map (fun e =>
    let webtop_id := e.1.replace "webtop_" ""
    let webtop_dir := joinPath UPLOAD_DIR e.1
    let running := ¬(dockerPs ("webtop-ubuntu-xfce-" ++ webtop_id)).trim.isEmpty
    { webtop_id := webtop_id
      directory := webtop_dir
      is_running := running
      container_name :=
        if running then some ("webtop-ubuntu-xfce-" ++ webtop_id) else none : WebtopEntry })
  { status := "success", webtops := webtops, count := webtops.length }

/-! ### Characterization of the two regex searches -/

theorem stripPre_eq_some {p : List Char} : ∀ {s r : List Char},
    stripPre p s = some r ↔ s = p ++ r := by
  induction p with
  | nil => intro s r; simp [stripPre]
  | cons a as ih =>
    intro s r
    cases s with
    | nil => simp [stripPre]
    | cons c cs =>
      by_cases hac : a = c
      · subst hac
        simp only [stripPre, beq_self_eq_true, if_true, List.cons_append,
          List.cons.injEq, true_and]
        exact ih
      · simp [stripPre, hac, Ne.symm hac]

theorem head_dropWhile_false (p : Char → Bool) (l : List Char) :
    ∀ c, (l.dropWhile p).head? = some c → p c = false := by
  intro c hc
  have h := List.head?_dropWhile_not p l
  rw [hc] at h
  exact h

theorem isPyDigit_not_space {c : Char} (h : isPyDigit c = true) : isPySpace c = false := by
  have hall : ∀ n ∈ pySpaceCodes, isPyDigitNat n = false := by decide
  by_contra hs
  rw [Bool.not_eq_false] at hs
  unfold isPySpace isPySpaceNat at hs
  obtain ⟨n, hn, hbeq⟩ := List.any_eq_true.mp hs
  have he : n = c.toNat := beq_iff_eq.mp hbeq
  have hf := hall n hn
  rw [he] at hf
  unfold isPyDigit at h
  rw [hf] at h
  exact absurd h Bool.false_ne_true

theorem dropWhile_all_append_cons {p : Char → Bool} {ws l : List Char} {c : Char}
    (hws : ∀ x ∈ ws, p x = true) (hc : p c = false) :
    (ws ++ c :: l).dropWhile p = c :: l := by
  rw [List.dropWhile_append_of_pos hws, List.dropWhile_cons_of_neg (by simp [hc])]

/-! #### Identity pattern -/

theorem tryUserAt_sound {s t : List Char} (h : tryUserAt s = some t) :
    UserOccMaxAt s 0 t := by
  unfold tryUserAt at h
  cases h1 : stripPre userPrefixLit s with
  | none => rw [h1] at h; exact absurd h (by simp)
  | some r1 =>
    rw [h1] at h
    simp only at h
    cases h2 : stripPre userNeedleLit (r1.dropWhile isPySpace) with
    | none => rw [h2] at h; exact absurd h (by simp)
    | some r3 =>
      rw [h2] at h
      simp only at h
      by_cases he : (r3.takeWhile isPyWordChar).isEmpty
      · rw [if_pos he] at h; exact absurd h (by simp)
      · rw [if_neg he] at h
        have ht : t = r3.takeWhile isPyWordChar := by
          cases h; rfl
        refine ⟨[], r1.takeWhile isPySpace, r3.dropWhile isPyWordChar, ?_, rfl, ?_, ?_, ?_, ?_⟩
        · have hs1 : s = userPrefixLit ++ r1 := stripPre_eq_some.mp h1
          have hr1 : r1.takeWhile isPySpace ++ r1.dropWhile isPySpace = r1 :=
            List.takeWhile_append_dropWhile isPySpace r1
          have hr2 : r1.dropWhile isPySpace = userNeedleLit ++ r3 := stripPre_eq_some.mp h2
          have hr3 : r3.takeWhile isPyWordChar ++ r3.dropWhile isPyWordChar = r3 :=
            List.takeWhile_append_dropWhile isPyWordChar r3
          rw [ht]
          conv_lhs => rw [hs1, ← hr1, hr2, ← hr3]
          simp [List.append_assoc]
        · intro c hc; exact List.mem_takeWhile_imp hc
        · rw [ht]; intro hnil; rw [hnil] at he; exact he rfl
        · rw [ht]; intro c hc; exact List.mem_takeWhile_imp hc
        · intro c hc; exact head_dropWhile_false isPyWordChar r3 c hc

theorem tryUserAt_complete {s t : List Char} (h : UserOccAt s 0 t) :
    ∃ u, tryUserAt s = some u := by
  obtain ⟨pre, ws, rest, heq, hlen, hws, hne, hword⟩ := h
  have hpre : pre = [] := List.eq_nil_of_length_eq_zero hlen
  subst hpre
  simp only [List.nil_append] at heq
  have h1 : stripPre userPrefixLit s = some (ws ++ userNeedleLit ++ t ++ rest) := by
    rw [stripPre_eq_some, heq]; simp [List.append_assoc]
  have hneedle : (ws ++ userNeedleLit ++ t ++ rest) =
      ws ++ 'w' :: ("ebtop-ubuntu-xfce-".data ++ (t ++ rest)) := by
    simp [List.append_assoc]; rfl
  have h2 : ((ws ++ userNeedleLit ++ t ++ rest).dropWhile isPySpace) =
      userNeedleLit ++ (t ++ rest) := by
    rw [hneedle, dropWhile_all_append_cons hws (by decide)]
    rfl
  have h3 : stripPre userNeedleLit ((ws ++ userNeedleLit ++ t ++ rest).dropWhile isPySpace) =
      some (t ++ rest) := by
    rw [h2, stripPre_eq_some]
  cases t with
  | nil => exact absurd rfl hne
  | cons t0 ts =>
    have ht0 : isPyWordChar t0 = true := hword t0 (by simp)
    refine ⟨((t0 :: ts ++ rest).takeWhile isPyWordChar), ?_⟩
    unfold tryUserAt
    rw [h1]
    simp only
    rw [h3]
    simp only [List.cons_append, List.takeWhile_cons_of_pos ht0]
    rfl

theorem userOccAt_cons {c : Char} {cs : List Char} {j : Nat} {t : List Char} :
    UserOccAt (c :: cs) (j + 1) t ↔ UserOccAt cs j t := by
  constructor
  · rintro ⟨pre, ws, rest, heq, hlen, hws, hne, hword⟩
    cases pre with
    | nil => simp at hlen
    | cons c0 pre' =>
      simp only [List.cons_append, List.cons.injEq] at heq
      refine ⟨pre', ws, rest, heq.2, ?_, hws, hne, hword⟩
      simpa using hlen
  · rintro ⟨pre, ws, rest, heq, hlen, hws, hne, hword⟩
    exact ⟨c :: pre, ws, rest, by simp [heq], by simp [hlen], hws, hne, hword⟩

theorem userOccMaxAt_cons {c : Char} {cs : List Char} {j : Nat} {t : List Char} :
    UserOccMaxAt (c :: cs) (j + 1) t ↔ UserOccMaxAt cs j t := by
  constructor
  · rintro ⟨pre, ws, rest, heq, hlen, hws, hne, hword, hmax⟩
    cases pre with
    | nil => simp at hlen
    | cons c0 pre' =>
      simp only [List.cons_append, List.cons.injEq] at heq
      refine ⟨pre', ws, rest, heq.2, ?_, hws, hne, hword, hmax⟩
      simpa using hlen
  · rintro ⟨pre, ws, rest, heq, hlen, hws, hne, hword, hmax⟩
    exact ⟨c :: pre, ws, rest, by simp [heq], by simp [hlen], hws, hne, hword, hmax⟩

theorem userOccAt_nil {i : Nat} {t : List Char} : ¬ UserOccAt [] i t := by
  rintro ⟨pre, ws, rest, heq, -, -, -, -⟩
  have := congrArg List.length heq
  simp [userPrefixLit, List.length_append] at this
  omega

theorem searchUser_none_sound : ∀ {s : List Char}, searchUser s = none →
    ∀ i t, ¬ UserOccAt s i t := by
  intro s
  induction s with
  | nil => intro _ i t; exact userOccAt_nil
  | cons c cs ih =>
    intro hnone i t hocc
    cases htry : tryUserAt (c :: cs) with
    | some u => simp [searchUser, htry] at hnone
    | none =>
      have hrec : searchUser cs = none := by
        simpa [searchUser, htry] using hnone
      cases i with
      | zero =>
        obtain ⟨u, hu⟩ := tryUserAt_complete hocc
        rw [htry] at hu; exact absurd hu (by simp)
      | succ j => exact ih hrec j t (userOccAt_cons.mp hocc)

theorem searchUser_some_sound : ∀ {s t : List Char}, searchUser s = some t →
    ∃ i, UserOccMaxAt s i t ∧ ∀ j u, UserOccAt s j u → i ≤ j := by
  intro s
  induction s with
  | nil => intro t h; simp [searchUser] at h
  | cons c cs ih =>
    intro t h
    cases htry : tryUserAt (c :: cs) with
    | some u =>
      have hu : u = t := by simpa [searchUser, htry] using h
      subst hu
      exact ⟨0, tryUserAt_sound htry, fun j u _ => Nat.zero_le j⟩
    | none =>
      have hrec : searchUser cs = some t := by
        simpa [searchUser, htry] using h
      obtain ⟨i, hmax, hmin⟩ := ih hrec
      refine ⟨i + 1, userOccMaxAt_cons.mpr hmax, ?_⟩
      intro j u hocc
      cases j with
      | zero =>
        obtain ⟨v, hv⟩ := tryUserAt_complete hocc
        rw [htry] at hv; exact absurd hv (by simp)
      | succ j' => exact Nat.succ_le_succ (hmin j' u (userOccAt_cons.mp hocc))

/-! #### Port pattern -/

theorem tryPortAt_sound {s ds : List Char} (h : tryPortAt s = some ds) :
    PortOccAt s 0 ds := by
  unfold tryPortAt at h
  cases h1 : stripPre ['-'] s with
  | none => rw [h1] at h; exact absurd h (by simp)
  | some r1 =>
    rw [h1] at h
    simp only at h
    by_cases he : ((r1.dropWhile isPySpace).takeWhile isPyDigit).isEmpty
    · rw [if_pos he] at h; exact absurd h (by simp)
    · rw [if_neg he] at h
      cases h2 : stripPre portTailLit ((r1.dropWhile isPySpace).dropWhile isPyDigit) with
      | none => rw [h2] at h; exact absurd h (by simp)
      | some r4 =>
        rw [h2] at h
        simp only [Option.some.injEq] at h
        refine ⟨[], r1.takeWhile isPySpace, r4, ?_, rfl, ?_, ?_, ?_⟩
        · have hs1 : s = ['-'] ++ r1 := stripPre_eq_some.mp h1
          have hr1 : r1.takeWhile isPySpace ++ r1.dropWhile isPySpace = r1 :=
            List.takeWhile_append_dropWhile isPySpace r1
          have hr2 : (r1.dropWhile isPySpace).takeWhile isPyDigit ++
              (r1.dropWhile isPySpace).dropWhile isPyDigit = r1.dropWhile isPySpace :=
            List.takeWhile_append_dropWhile isPyDigit (r1.dropWhile isPySpace)
          have hr3 : (r1.dropWhile isPySpace).dropWhile isPyDigit = portTailLit ++ r4 :=
            stripPre_eq_some.mp h2
          rw [← h]
          conv_lhs => rw [hs1, ← hr1, ← hr2, hr3]
          simp [List.append_assoc]
        · intro c hc; exact List.mem_takeWhile_imp hc
        · rw [← h]; intro hnil; rw [hnil] at he; exact he rfl
        · rw [← h]; intro c hc; exact List.mem_takeWhile_imp hc

theorem tryPortAt_complete {s ds : List Char} (h : PortOccAt s 0 ds) :
    ∃ u, tryPortAt s = some u := by
  obtain ⟨pre, ws, rest, heq, hlen, hws, hne, hdig⟩ := h
  have hpre : pre = [] := List.eq_nil_of_length_eq_zero hlen
  subst hpre
  simp only [List.nil_append] at heq
  have h1 : stripPre ['-'] s = some (ws ++ ds ++ portTailLit ++ rest) := by
    rw [stripPre_eq_some, heq]; simp [List.append_assoc]
  cases ds with
  | nil => exact absurd rfl hne
  | cons d0 dtl =>
    have hd0 : isPyDigit d0 = true := hdig d0 (by simp)
    have h2 : ((ws ++ (d0 :: dtl) ++ portTailLit ++ rest).dropWhile isPySpace) =
        d0 :: (dtl ++ portTailLit ++ rest) := by
      have : ws ++ (d0 :: dtl) ++ portTailLit ++ rest =
          ws ++ d0 :: (dtl ++ (portTailLit ++ rest)) := by simp [List.append_assoc]
      rw [this, dropWhile_all_append_cons hws (isPyDigit_not_space hd0)]
      simp [List.append_assoc]
    have hall : ∀ x ∈ d0 :: dtl, isPyDigit x = true := hdig
    have h3 : (d0 :: (dtl ++ portTailLit ++ rest)).dropWhile isPyDigit =
        portTailLit ++ rest := by
      have hx : d0 :: (dtl ++ portTailLit ++ rest) =
          (d0 :: dtl) ++ (':' :: ("3000".data ++ rest)) := by
        simp [List.append_assoc]; rfl
      rw [hx, List.dropWhile_append_of_pos hall,
        List.dropWhile_cons_of_neg (by decide)]
      rfl
    have h4 : (d0 :: (dtl ++ portTailLit ++ rest)).takeWhile isPyDigit ≠ [] := by
      rw [List.takeWhile_cons_of_pos hd0]
      simp
    refine ⟨(d0 :: (dtl ++ portTailLit ++ rest)).takeWhile isPyDigit, ?_⟩
    unfold tryPortAt
    rw [h1]
    simp only
    rw [h2, if_neg (by simpa [List.isEmpty_iff] using h4), h3,
      (stripPre_eq_some (r := rest)).mpr rfl]

theorem portOccAt_cons {c : Char} {cs : List Char} {j : Nat} {ds : List Char} :
    PortOccAt (c :: cs) (j + 1) ds ↔ PortOccAt cs j ds := by
  constructor
  · rintro ⟨pre, ws, rest, heq, hlen, hws, hne, hdig⟩
    cases pre with
    | nil => simp at hlen
    | cons c0 pre' =>
      simp only [List.cons_append, List.cons.injEq] at heq
      refine ⟨pre', ws, rest, heq.2, ?_, hws, hne, hdig⟩
      simpa using hlen
  · rintro ⟨pre, ws, rest, heq, hlen, hws, hne, hdig⟩
    exact ⟨c :: pre, ws, rest, by simp [heq], by simp [hlen], hws, hne, hdig⟩

theorem portOccAt_nil {i : Nat} {ds : List Char} : ¬ PortOccAt [] i ds := by
  rintro ⟨pre, ws, rest, heq, -, -, -, -⟩
  have := congrArg List.length heq
  simp [portTailLit, List.length_append] at this
  omega

theorem searchPortDigits_none_sound : ∀ {s : List Char}, searchPortDigits s = none →
    ∀ i ds, ¬ PortOccAt s i ds := by
  intro s
  induction s with
  | nil => intro _ i ds; exact portOccAt_nil
  | cons c cs ih =>
    intro hnone i ds hocc
    cases htry : tryPortAt (c :: cs) with
    | some u => simp [searchPortDigits, htry] at hnone
    | none =>
      have hrec : searchPortDigits cs = none := by
        simpa [searchPortDigits, htry] using hnone
      cases i with
      | zero =>
        obtain ⟨u, hu⟩ := tryPortAt_complete hocc
        rw [htry] at hu; exact absurd hu (by simp)
      | succ j => exact ih hrec j ds (portOccAt_cons.mp hocc)

theorem searchPortDigits_some_sound : ∀ {s ds : List Char},
    searchPortDigits s = some ds →
    ∃ i, PortOccAt s i ds ∧ ∀ j u, PortOccAt s j u → i ≤ j := by
  intro s
  induction s with
  | nil => intro ds h; simp [searchPortDigits] at h
  | cons c cs ih =>
    intro ds h
    cases htry : tryPortAt (c :: cs) with
    | some u =>
      have hu : u = ds := by simpa [searchPortDigits, htry] using h
      subst hu
      exact ⟨0, tryPortAt_sound htry, fun j u _ => Nat.zero_le j⟩
    | none =>
      have hrec : searchPortDigits cs = some ds := by
        simpa [searchPortDigits, htry] using h
      obtain ⟨i, hocc, hmin⟩ := ih hrec
      refine ⟨i + 1, portOccAt_cons.mpr hocc, ?_⟩
      intro j u hocc2
      cases j with
      | zero =>
        obtain ⟨v, hv⟩ := tryPortAt_complete hocc2
        rw [htry] at hv; exact absurd hv (by simp)
      | succ j' => exact Nat.succ_le_succ (hmin j' u (portOccAt_cons.mp hocc2))

/-! ### Script-structure observations (for the script generator claims) -/

/-- A write fragment is the build invocation iff it begins with the text
`docker build ` (no other fragment shape of the generator does). -/
def fragIsBuildCmd (w : String) : Bool := w.data.take 13 == "docker build ".data

/-- A write fragment is the orchestration bring-up invocation iff it
begins with the text `docker compose ` (no other fragment shape of the
generator does; the bring-down command is issued by `stop`, not by the
generated script). -/
def fragIsComposeCmd (w : String) : Bool := w.data.take 15 == "docker compose ".data

/-- Every build invocation in a write sequence is immediately followed by
the abort-on-failure check: `if [ $? -ne 0 ]; then`, a diagnostic line,
`    exit 1`, `fi`. -/
def buildChecksOk : List String → Bool
  | [] => true
  | w :: ws =>
    if fragIsBuildCmd w then
      match ws with
      | w1 :: _ :: w3 :: w4 :: rest =>
        w1 == "if [ $? -ne 0 ]; then\n" && w3 == "    exit 1\n" && w4 == "fi\n\n" &&
        buildChecksOk rest
      | _ => false
    else buildChecksOk ws

/-- The exact build-invocation fragment of the `i`-th block. -/
def buildCmdLine (webtop_id : String) (i : Nat) (dockerfile : String) : String :=
  "docker build -f " ++ dockerfile ++ " -t " ++
    ("webtop-custom-" ++ webtop_id ++ "-" ++ toString i) ++ " .\n"

theorem filter_build_buildStep (webtop_id : String) (i : Nat) (d : String) :
    (buildStepWrites webtop_id i d).filter fragIsBuildCmd =
      [buildCmdLine webtop_id i d] := rfl

theorem filter_build_flatten (webtop_id : String) :
    ∀ l : List (Nat × String),
    ((l.map (fun p => buildStepWrites webtop_id p.1 p.2)).flatten).filter fragIsBuildCmd =
      l.map (fun p => buildCmdLine webtop_id p.1 p.2) := by
  intro l
  induction l with
  | nil => rfl
  | cons p ps ih =>
    simp only [List.map_cons, List.flatten_cons, List.filter_append,
      filter_build_buildStep, ih]
    rfl

theorem filter_compose_flatten (webtop_id : String) :
    ∀ l : List (Nat × String),
    ((l.map (fun p => buildStepWrites webtop_id p.1 p.2)).flatten).filter fragIsComposeCmd =
      [] := by
  intro l
  induction l with
  | nil => rfl
  | cons p ps ih =>
    simp only [List.map_cons, List.flatten_cons, List.filter_append, ih]
    rfl

theorem buildChecksOk_block_append (webtop_id : String) (i : Nat) (d : String)
    (tail : List String) :
    buildChecksOk (buildStepWrites webtop_id i d ++ tail) = buildChecksOk tail := rfl

theorem buildChecksOk_flatten (webtop_id yaml : String) :
    ∀ l : List (Nat × String),
    buildChecksOk (((l.map (fun p => buildStepWrites webtop_id p.1 p.2)).flatten) ++
      composeUpWrites yaml webtop_id) = true := by
  intro l
  induction l with
  | nil => rfl
  | cons p ps ih =>
    simp only [List.map_cons, List.flatten_cons, List.append_assoc] at *
    rw [buildChecksOk_block_append]
    exact ih

/-! ### Sanitizer safety (for the path-safety claim) -/

theorem mem_rstripP {p : Char → Bool} {l : List Char} {c : Char}
    (h : c ∈ rstripP p l) : c ∈ l := by
  unfold rstripP at h
  rw [List.mem_reverse] at h
  have hsub := (List.dropWhile_suffix (l := l.reverse) p).subset h
  rwa [List.mem_reverse] at hsub

theorem rstripP_prefix (p : Char → Bool) (l : List Char) : rstripP p l <+: l := by
  unfold rstripP
  have h := List.dropWhile_suffix (l := l.reverse) p
  have h2 := List.reverse_prefix.mpr h
  rwa [List.reverse_reverse] at h2

theorem secure_filename_chars (s : String) :
    ∀ c ∈ (secure_filename s).data, isSafeFilenameChar c = true := by
  intro c hc
  unfold secure_filename at hc
  simp only [String.data] at hc
  have h1 : c ∈ lstripP isDotOrUnderscore
      ((squashWs ((s.data.map (fun c => if c == '/' || c == '\\' then ' ' else c)).dropWhile
        isPySpace)).filter isSafeFilenameChar) := mem_rstripP hc
  have h2 := (List.dropWhile_suffix (p := isDotOrUnderscore)).subset h1
  exact List.of_mem_filter h2

theorem secure_filename_head (s : String) :
    ∀ c, (secure_filename s).data.head? = some c → isDotOrUnderscore c = false := by
  intro c hc
  unfold secure_filename at hc
  simp only [String.data] at hc
  set m := (squashWs ((s.data.map (fun c => if c == '/' || c == '\\' then ' ' else c)).dropWhile
    isPySpace)).filter isSafeFilenameChar with hm
  have hpre := rstripP_prefix isDotOrUnderscore (lstripP isDotOrUnderscore m)
  obtain ⟨t, ht⟩ := hpre
  cases hr : rstripP isDotOrUnderscore (lstripP isDotOrUnderscore m) with
  | nil => rw [hr] at hc; simp at hc
  | cons c0 cs =>
    rw [hr] at hc ht
    simp only [List.head?_cons, Option.some.injEq] at hc
    have hh : (lstripP isDotOrUnderscore m).head? = some c0 := by
      rw [← ht]; rfl
    rw [hc] at hh
    exact head_dropWhile_false isDotOrUnderscore m c hh

theorem secure_filename_safe (s : String) :
    (∀ c ∈ (secure_filename s).data, c ≠ '/') ∧
    secure_filename s ≠ "." ∧ secure_filename s ≠ ".." := by
  refine ⟨?_, ?_, ?_⟩
  · intro c hc he
    have := secure_filename_chars s c hc
    rw [he] at this
    exact absurd this (by decide)
  · intro he
    have hd : (secure_filename s).data.head? = some '.' := by
      rw [he]; rfl
    exact absurd (secure_filename_head s '.' hd) (by decide)
  · intro he
    have hd : (secure_filename s).data.head? = some '.' := by
      rw [he]; rfl
    exact absurd (secure_filename_head s '.' hd) (by decide)

theorem strStarts_slash_false {n : String} (h : ∀ c ∈ n.data, c ≠ '/') :
    strStarts "/" n = false := by
  unfold strStarts
  cases hnd : n.data with
  | nil => rfl
  | cons c cs =>
    have hc : c ≠ '/' := h c (by rw [hnd]; exact List.mem_cons_self c cs)
    show List.isPrefixOf ['/'] (c :: cs) = false
    simp only [List.isPrefixOf, Bool.and_eq_false_iff]
    left
    exact beq_eq_false_iff_ne.mpr (Ne.symm hc)

theorem joinPath_no_slash {d n : String} (h : ∀ c ∈ n.data, c ≠ '/') :
    joinPath d n = d ++ "/" ++ n := by
  unfold joinPath
  rw [strStarts_slash_false h]
  rfl

/-! ### Registry lemmas -/

theorem fsGetDir_eraseDir (fs : FS) (n : String) :
    fsGetDir (fsEraseDir fs n) n = none := by
  induction fs with
  | nil => rfl
  | cons e fs ih =>
    by_cases he : e.1 = n
    · have hstep : fsEraseDir (e :: fs) n = fsEraseDir fs n := by
        simp [fsEraseDir, List.filter_cons, he]
      rw [hstep]; exact ih
    · have hstep : fsEraseDir (e :: fs) n = e :: fsEraseDir fs n := by
        simp [fsEraseDir, List.filter_cons, he]
      rw [hstep]
      unfold fsGetDir at ih ⊢
      rw [List.find?_cons_of_neg]
      · exact ih
      · simp [he]

/-! ### Claim theorems -/

theorem userOccMaxAt_weaken {s : List Char} {i : Nat} {t : List Char}
    (h : UserOccMaxAt s i t) : UserOccAt s i t := by
  obtain ⟨pre, ws, rest, h1, h2, h3, h4, h5, -⟩ := h
  exact ⟨pre, ws, rest, h1, h2, h3, h4, h5⟩

/-- Claim C2: for every manifest byte string whose decoded text contains the
naming-convention field `container_name: webtop-ubuntu-xfce-<token>`, identity
extraction returns exactly the captured token of the leftmost occurrence (with
the token greedily maximal); for every byte string without that pattern —
including byte strings that do not decode as UTF-8 — it returns `None`. -/
theorem C2_identity_extraction (bs : List Nat) :
    (utf8Decode bs = none → extract_user_from_yaml bs = none) ∧
    (∀ s, utf8Decode bs = some s →
      ((extract_user_from_yaml bs = none ↔ ¬ ∃ i t, UserOccAt s i t) ∧
       (∀ t, extract_user_from_yaml bs = some t →
         ∃ i, UserOccMaxAt s i t ∧ ∀ j u, UserOccAt s j u → i ≤ j))) := by
  constructor
  · intro h
    unfold extract_user_from_yaml
    rw [h]
    rfl
  · intro s hs
    have he : extract_user_from_yaml bs = searchUser s := by
      unfold extract_user_from_yaml
      rw [hs]
      rfl
    constructor
    · constructor
      · intro hn
        rintro ⟨i, t, hocc⟩
        rw [he] at hn
        exact searchUser_none_sound hn i t hocc
      · intro hno
        rw [he]
        cases hres : searchUser s with
        | none => rfl
        | some t =>
          obtain ⟨i, hmax, -⟩ := searchUser_some_sound hres
          exact absurd ⟨i, t, userOccMaxAt_weaken hmax⟩ hno
    · intro t ht
      rw [he] at ht
      exact searchUser_some_sound ht

theorem C2_identity_extraction_witness :
    (∃ i, UserOccMaxAt ("container_name: webtop-ubuntu-xfce-bob\n".data) i ("bob".data) ∧
      ∀ j u, UserOccAt ("container_name: webtop-ubuntu-xfce-bob\n".data) j u → i ≤ j) ∧
    (∃ i, UserOccMaxAt ("container_name: webtop-ubuntu-xfce-josé".data) i ("josé".data) ∧
      ∀ j u, UserOccAt ("container_name: webtop-ubuntu-xfce-josé".data) j u → i ≤ j) :=
  ⟨((C2_identity_extraction (asciiBytes "container_name: webtop-ubuntu-xfce-bob\n")).2
      ("container_name: webtop-ubuntu-xfce-bob\n".data) (by decide)).2
      ("bob".data) (by decide),
   ((C2_identity_extraction
        (asciiBytes "container_name: webtop-ubuntu-xfce-jos" ++ [0xC3, 0xA9])).2
      ("container_name: webtop-ubuntu-xfce-josé".data) (by decide)).2
      ("josé".data) (by decide)⟩

/-- Claim C3: for every manifest byte string whose decoded text contains a
port-mapping fragment `- <N>:3000`, port extraction returns the decimal value
of the digits of the leftmost such occurrence; for every byte string without
that pattern — including byte strings that do not decode as UTF-8, on which no
exception escapes — it returns `None`. -/
theorem C3_port_extraction (bs : List Nat) :
    (utf8Decode bs = none → extract_port_from_yaml bs = none) ∧
    (∀ s, utf8Decode bs = some s →
      ((extract_port_from_yaml bs = none ↔ ¬ ∃ i ds, PortOccAt s i ds) ∧
       (∀ n, extract_port_from_yaml bs = some n →
         ∃ i ds, PortOccAt s i ds ∧ n = digitsToNat ds ∧
           ∀ j u, PortOccAt s j u → i ≤ j))) := by
  constructor
  · intro h
    unfold extract_port_from_yaml
    rw [h]
    rfl
  · intro s hs
    have he : extract_port_from_yaml bs = (searchPortDigits s).map digitsToNat := by
      unfold extract_port_from_yaml
      rw [hs]
      rfl
    constructor
    · constructor
      · intro hn
        rintro ⟨i, ds, hocc⟩
        rw [he] at hn
        have hsn : searchPortDigits s = none := by
          cases hres : searchPortDigits s with
          | none => rfl
          | some u => rw [hres] at hn; exact absurd hn (by simp)
        exact searchPortDigits_none_sound hsn i ds hocc
      · intro hno
        rw [he]
        cases hres : searchPortDigits s with
        | none => rfl
        | some ds =>
          obtain ⟨i, hocc, -⟩ := searchPortDigits_some_sound hres
          exact absurd ⟨i, ds, hocc⟩ hno
    · intro n hn
      rw [he] at hn
      cases hres : searchPortDigits s with
      | none => rw [hres] at hn; exact absurd hn (by simp)
      | some ds =>
        rw [hres] at hn
        simp only [Option.map_some', Option.some.injEq] at hn
        obtain ⟨i, hocc, hmin⟩ := searchPortDigits_some_sound hres
        exact ⟨i, ds, hocc, hn.symm, hmin⟩

theorem C3_port_extraction_witness :
    (∃ i ds, PortOccAt ("ports:\n    - 3021:3000\n".data) i ds ∧
      3021 = digitsToNat ds ∧
      ∀ j u, PortOccAt ("ports:\n    - 3021:3000\n".data) j u → i ≤ j) ∧
    (∃ i ds, PortOccAt ("- ٣:3000".data) i ds ∧
      3 = digitsToNat ds ∧
      ∀ j u, PortOccAt ("- ٣:3000".data) j u → i ≤ j) :=
  ⟨((C3_port_extraction (asciiBytes "ports:\n    - 3021:3000\n")).2
      ("ports:\n    - 3021:3000\n".data) (by decide)).2 3021 (by decide),
   ((C3_port_extraction (asciiBytes "- " ++ [0xD9, 0xA3] ++ asciiBytes ":3000")).2
      ("- ٣:3000".data) (by decide)).2 3 (by decide)⟩

/-- Claim C4: for every identity and list of `k` build-file names, the write
sequence of the generated run script contains exactly `k` build invocations —
one per build file, in order, the `i`-th (1-based) tagged
`webtop-custom-<identity>-<i>` — each immediately followed by the
abort-on-failure check (`if [ $? -ne 0 ]`, `exit 1`, `fi`); exactly one
orchestration bring-up invocation referencing the saved manifest filename; and
the script ends with the bring-up block whose check echoes a success
diagnostic on exit code zero and exits 1 otherwise. -/
theorem C4_script_structure (webtop_id webtop_dir yaml_filename : String)
    (dockerfiles : List String) :
    ((runScriptWrites webtop_id webtop_dir yaml_filename dockerfiles).filter fragIsBuildCmd =
      (List.enumFrom 1 dockerfiles).map (fun p => buildCmdLine webtop_id p.1 p.2)) ∧
    ((List.enumFrom 1 dockerfiles).map Prod.fst = List.range' 1 dockerfiles.length) ∧
    ((runScriptWrites webtop_id webtop_dir yaml_filename dockerfiles).filter fragIsComposeCmd =
      ["docker compose -f " ++ yaml_filename ++ " up -d\n"]) ∧
    (buildChecksOk (runScriptWrites webtop_id webtop_dir yaml_filename dockerfiles) = true) ∧
    (∃ l, runScriptWrites webtop_id webtop_dir yaml_filename dockerfiles =
      l ++ composeUpWrites yaml_filename webtop_id) ∧
    (runScript webtop_id webtop_dir yaml_filename dockerfiles =
      String.join (runScriptWrites webtop_id webtop_dir yaml_filename dockerfiles)) := by
  refine ⟨?_, List.enumFrom_map_fst 1 dockerfiles, ?_, ?_, ?_, rfl⟩
  · cases dockerfiles with
    | nil => rfl
    | cons d ds =>
      have h0 : (runScriptWrites webtop_id webtop_dir yaml_filename (d :: ds)).filter
          fragIsBuildCmd =
          ((((List.enumFrom 1 (d :: ds)).map
            (fun p => buildStepWrites webtop_id p.1 p.2)).flatten) ++
              composeUpWrites yaml_filename webtop_id).filter fragIsBuildCmd := rfl
      rw [h0, List.filter_append, filter_build_flatten]
      have h1 : (composeUpWrites yaml_filename webtop_id).filter fragIsBuildCmd = [] := rfl
      rw [h1, List.append_nil]
  · cases dockerfiles with
    | nil => rfl
    | cons d ds =>
      have h0 : (runScriptWrites webtop_id webtop_dir yaml_filename (d :: ds)).filter
          fragIsComposeCmd =
          ((((List.enumFrom 1 (d :: ds)).map
            (fun p => buildStepWrites webtop_id p.1 p.2)).flatten) ++
              composeUpWrites yaml_filename webtop_id).filter fragIsComposeCmd := rfl
      rw [h0, List.filter_append, filter_compose_flatten]
      rfl
  · cases dockerfiles with
    | nil => rfl
    | cons d ds =>
      have h0 : buildChecksOk (runScriptWrites webtop_id webtop_dir yaml_filename (d :: ds)) =
          buildChecksOk ((((List.enumFrom 1 (d :: ds)).map
            (fun p => buildStepWrites webtop_id p.1 p.2)).flatten) ++
              composeUpWrites yaml_filename webtop_id) := rfl
      rw [h0]
      exact buildChecksOk_flatten webtop_id yaml_filename (List.enumFrom 1 (d :: ds))
  · cases dockerfiles with
    | nil => exact ⟨_, rfl⟩
    | cons d ds => exact ⟨_, rfl⟩

/-- Claim C5: run-script generation is deterministic — two deploys whose
saved-artifact determinants agree (same derived identity, same saved manifest
filename, same ordered saved build-file names) produce byte-identical script
text, regardless of the prior registry state, the uploaded file contents, or
the resource files. -/
theorem C5_script_determinism (fs1 fs2 : FS) (r1 r2 : DeployRequest)
    (hid : idOrDefault (extract_user_from_yaml r1.compose.content) =
      idOrDefault (extract_user_from_yaml r2.compose.content))
    (hy : secure_filename (filenameOr r1.compose.filename "docker-compose.yaml") =
      secure_filename (filenameOr r2.compose.filename "docker-compose.yaml"))
    (hd : savedDockerfileNames r1.dockerfiles = savedDockerfileNames r2.dockerfiles) :
    (deploy_webtop fs1 r1).script = (deploy_webtop fs2 r2).script := by
  have h1 : (deploy_webtop fs1 r1).script =
      runScript (idOrDefault (extract_user_from_yaml r1.compose.content))
        (joinPath UPLOAD_DIR
          ("webtop_" ++ idOrDefault (extract_user_from_yaml r1.compose.content)))
        (secure_filename (filenameOr r1.compose.filename "docker-compose.yaml"))
        (savedDockerfileNames r1.dockerfiles) := rfl
  have h2 : (deploy_webtop fs2 r2).script =
      runScript (idOrDefault (extract_user_from_yaml r2.compose.content))
        (joinPath UPLOAD_DIR
          ("webtop_" ++ idOrDefault (extract_user_from_yaml r2.compose.content)))
        (secure_filename (filenameOr r2.compose.filename "docker-compose.yaml"))
        (savedDockerfileNames r2.dockerfiles) := rfl
  rw [h1, h2, hid, hy, hd]

theorem C5_script_determinism_witness :
    (deploy_webtop []
      ⟨⟨some "a.yaml", asciiBytes "container_name: webtop-ubuntu-xfce-alice"⟩,
       [⟨some "Dockerfile", [65]⟩], []⟩).script =
    (deploy_webtop [("webtop_alice", [])]
      ⟨⟨some "a.yaml", asciiBytes "container_name: webtop-ubuntu-xfce-alice\nports:"⟩,
       [⟨some "Dockerfile", [66, 67]⟩], [⟨some "r.txt", [1]⟩]⟩).script :=
  C5_script_determinism _ _ _ _ (by decide) (by decide) (by decide)

theorem pyWordChar_ne_slash {c : Char} (h : isPyWordChar c = true) : c ≠ '/' := by
  intro he
  rw [he] at h
  exact absurd h (by decide)

/-- Claim C10: the identity reported by a successful deploy is either a
nonempty all-word-character token extracted from the manifest or the literal
fallback `default_user`; hence the directory name `webtop_<identity>` contains
no path separator, and the workload directory is the upload root, a
separator, and that name — a direct child of the upload root. -/
theorem C10_identity_shape (fs : FS) (req : DeployRequest) :
    ((deploy_webtop fs req).resp.webtop_id = "default_user" ∨
      (∃ t, extract_user_from_yaml req.compose.content = some t ∧
        (deploy_webtop fs req).resp.webtop_id = String.mk t ∧ t ≠ [] ∧
        ∀ c ∈ t, isPyWordChar c = true)) ∧
    (∀ c ∈ ("webtop_" ++ (deploy_webtop fs req).resp.webtop_id).data, c ≠ '/') ∧
    ((deploy_webtop fs req).resp.webtop_dir =
      UPLOAD_DIR ++ "/" ++ ("webtop_" ++ (deploy_webtop fs req).resp.webtop_id)) := by
  have hid : (deploy_webtop fs req).resp.webtop_id =
      idOrDefault (extract_user_from_yaml req.compose.content) := rfl
  have hshape : (deploy_webtop fs req).resp.webtop_id = "default_user" ∨
      (∃ t, extract_user_from_yaml req.compose.content = some t ∧
        (deploy_webtop fs req).resp.webtop_id = String.mk t ∧ t ≠ [] ∧
        ∀ c ∈ t, isPyWordChar c = true) := by
    rw [hid]
    cases hu : extract_user_from_yaml req.compose.content with
    | none => left; rfl
    | some t =>
      have hb := hu
      unfold extract_user_from_yaml at hb
      cases hdec : utf8Decode req.compose.content with
      | none => rw [hdec] at hb; exact absurd hb (by simp)
      | some s =>
        rw [hdec] at hb
        simp only [Option.some_bind] at hb
        obtain ⟨i, hmax, -⟩ := searchUser_some_sound hb
        obtain ⟨pre, ws, rest, -, -, -, hne, hword, -⟩ := hmax
        right
        refine ⟨t, rfl, ?_, hne, hword⟩
        have hred : idOrDefault (some t) =
            if t.isEmpty = true then "default_user" else String.mk t := rfl
        rw [hred, if_neg (by simpa [List.isEmpty_iff] using hne)]
  have hnoslash : ∀ c ∈ ("webtop_" ++ (deploy_webtop fs req).resp.webtop_id).data, c ≠ '/' := by
    intro c hc
    have hd : ("webtop_" ++ (deploy_webtop fs req).resp.webtop_id).data =
        'w' :: 'e' :: 'b' :: 't' :: 'o' :: 'p' :: '_' ::
          (deploy_webtop fs req).resp.webtop_id.data := rfl
    rw [hd] at hc
    simp only [List.mem_cons] at hc
    rcases hc with rfl | rfl | rfl | rfl | rfl | rfl | rfl | hc
    · decide
    · decide
    · decide
    · decide
    · decide
    · decide
    · decide
    · rcases hshape with h | ⟨t, -, heq, -, hword⟩
      · rw [h] at hc
        have hall : ∀ x ∈ "default_user".data, x ≠ '/' := by decide
        exact hall c hc
      · rw [heq] at hc
        exact pyWordChar_ne_slash (hword c hc)
  refine ⟨hshape, hnoslash, ?_⟩
  have hdir : (deploy_webtop fs req).resp.webtop_dir =
      joinPath UPLOAD_DIR
        ("webtop_" ++ idOrDefault (extract_user_from_yaml req.compose.content)) := rfl
  rw [hdir, ← hid]
  exact joinPath_no_slash hnoslash

/-- Claim C6: `stop` returns 404 when the workload directory is absent; it
also returns 404 — not a 500 — when the directory exists but holds no
`.yaml`/`.yml` file; only with both present does it run the bring-down
command, answering 200 (with captured stdout) on exit code zero and 500
(with captured stderr) otherwise. -/
theorem C6_stop_behaviour (fs : FS) (o : ComposeDownOracle) (webtop_id : String) :
    (fsGetDir fs ("webtop_" ++ webtop_id) = none →
      (stop_webtop fs o webtop_id).code = 404 ∧
      (stop_webtop fs o webtop_id).status = "error") ∧
    (∀ d, fsGetDir fs ("webtop_" ++ webtop_id) = some d →
      (d.map (fun e => e.1)).filter yamlLike = [] →
      (stop_webtop fs o webtop_id).code = 404 ∧
      (stop_webtop fs o webtop_id).status = "error") ∧
    (∀ d y ys, fsGetDir fs ("webtop_" ++ webtop_id) = some d →
      (d.map (fun e => e.1)).filter yamlLike = y :: ys →
      (((o (joinPath (joinPath UPLOAD_DIR ("webtop_" ++ webtop_id)) y)
          (joinPath UPLOAD_DIR ("webtop_" ++ webtop_id))).returncode = 0 →
        (stop_webtop fs o webtop_id).code = 200 ∧
        (stop_webtop fs o webtop_id).status = "success" ∧
        (stop_webtop fs o webtop_id).output =
          some (o (joinPath (joinPath UPLOAD_DIR ("webtop_" ++ webtop_id)) y)
            (joinPath UPLOAD_DIR ("webtop_" ++ webtop_id))).stdout) ∧
       ((o (joinPath (joinPath UPLOAD_DIR ("webtop_" ++ webtop_id)) y)
          (joinPath UPLOAD_DIR ("webtop_" ++ webtop_id))).returncode ≠ 0 →
        (stop_webtop fs o webtop_id).code = 500 ∧
        (stop_webtop fs o webtop_id).status = "error" ∧
        (stop_webtop fs o webtop_id).error =
          some (o (joinPath (joinPath UPLOAD_DIR ("webtop_" ++ webtop_id)) y)
            (joinPath UPLOAD_DIR ("webtop_" ++ webtop_id))).stderr))) := by
  refine ⟨?_, ?_, ?_⟩
  · intro h
    simp [stop_webtop, h]
  · intro d hdir hyaml
    simp [stop_webtop, hdir, hyaml]
  · intro d y ys hdir hyaml
    constructor
    · intro h0
      simp [stop_webtop, hdir, hyaml, h0]
    · intro h0
      simp [stop_webtop, hdir, hyaml, h0]

theorem C6_stop_behaviour_witness :
    ((stop_webtop [] (fun _ _ => ⟨0, "", ""⟩) "ghost").code = 404 ∧
      (stop_webtop [] (fun _ _ => ⟨0, "", ""⟩) "ghost").status = "error") ∧
    ((stop_webtop [("webtop_bob", [("run.sh", FileContent.text "x")])]
        (fun _ _ => ⟨0, "", ""⟩) "bob").code = 404 ∧
      (stop_webtop [("webtop_bob", [("run.sh", FileContent.text "x")])]
        (fun _ _ => ⟨0, "", ""⟩) "bob").status = "error") ∧
    ((stop_webtop [("webtop_bob", [("a.yml", FileContent.bytes [])])]
        (fun _ _ => ⟨0, "ok", ""⟩) "bob").code = 200 ∧
      (stop_webtop [("webtop_bob", [("a.yml", FileContent.bytes [])])]
        (fun _ _ => ⟨0, "ok", ""⟩) "bob").output = some "ok") ∧
    ((stop_webtop [("webtop_bob", [("a.yml", FileContent.bytes [])])]
        (fun _ _ => ⟨2, "", "boom"⟩) "bob").code = 500 ∧
      (stop_webtop [("webtop_bob", [("a.yml", FileContent.bytes [])])]
        (fun _ _ => ⟨2, "", "boom"⟩) "bob").error = some "boom") := by
  refine ⟨?_, ?_, ?_, ?_⟩
  · exact (C6_stop_behaviour [] (fun _ _ => ⟨0, "", ""⟩) "ghost").1 (by decide)
  · exact ((C6_stop_behaviour [("webtop_bob", [("run.sh", FileContent.text "x")])]
      (fun _ _ => ⟨0, "", ""⟩) "bob").2.1 [("run.sh", FileContent.text "x")]
      (by decide) (by decide))
  · have h := ((C6_stop_behaviour [("webtop_bob", [("a.yml", FileContent.bytes [])])]
      (fun _ _ => ⟨0, "ok", ""⟩) "bob").2.2 [("a.yml", FileContent.bytes [])] "a.yml" []
      (by decide) (by decide)).1 (by decide)
    exact ⟨h.1, h.2.2⟩
  · have h := ((C6_stop_behaviour [("webtop_bob", [("a.yml", FileContent.bytes [])])]
      (fun _ _ => ⟨2, "", "boom"⟩) "bob").2.2 [("a.yml", FileContent.bytes [])] "a.yml" []
      (by decide) (by decide)).2 (by decide)
    exact ⟨h.1, h.2.2⟩

/-- Claim C7: `cleanup` on an identity without a workload directory answers
404 and leaves the registry unchanged; with the directory present, the
bring-down is best-effort (the outcome is independent of the bring-down
oracle) and the directory tree is removed, answering 200. -/
theorem C7_cleanup_behaviour (fs : FS) (o : ComposeDownOracle) (webtop_id : String) :
    (fsGetDir fs ("webtop_" ++ webtop_id) = none →
      (cleanup_webtop fs o webtop_id).2.code = 404 ∧
      (cleanup_webtop fs o webtop_id).1 = fs) ∧
    (∀ d, fsGetDir fs ("webtop_" ++ webtop_id) = some d →
      (cleanup_webtop fs o webtop_id).2.code = 200 ∧
      (cleanup_webtop fs o webtop_id).1 = fsEraseDir fs ("webtop_" ++ webtop_id) ∧
      fsGetDir (cleanup_webtop fs o webtop_id).1 ("webtop_" ++ webtop_id) = none) ∧
    (∀ o2, cleanup_webtop fs o webtop_id = cleanup_webtop fs o2 webtop_id) := by
  refine ⟨?_, ?_, ?_⟩
  · intro h
    simp [cleanup_webtop, h]
  · intro d hdir
    refine ⟨?_, ?_, ?_⟩
    · simp [cleanup_webtop, hdir]
    · simp [cleanup_webtop, hdir]
    · have h1 : (cleanup_webtop fs o webtop_id).1 =
          fsEraseDir fs ("webtop_" ++ webtop_id) := by
        simp [cleanup_webtop, hdir]
      rw [h1]
      exact fsGetDir_eraseDir fs ("webtop_" ++ webtop_id)
  · intro o2
    cases hdir : fsGetDir fs ("webtop_" ++ webtop_id) with
    | none => simp [cleanup_webtop, hdir]
    | some d => simp [cleanup_webtop, hdir]

theorem C7_cleanup_behaviour_witness :
    ((cleanup_webtop [] (fun _ _ => ⟨0, "", ""⟩) "ghost").2.code = 404 ∧
      (cleanup_webtop [] (fun _ _ => ⟨0, "", ""⟩) "ghost").1 = []) ∧
    ((cleanup_webtop [("webtop_bob", [("a.yml", FileContent.bytes [])])]
        (fun _ _ => ⟨1, "", "err"⟩) "bob").2.code = 200 ∧
      fsGetDir (cleanup_webtop [("webtop_bob", [("a.yml", FileContent.bytes [])])]
        (fun _ _ => ⟨1, "", "err"⟩) "bob").1 "webtop_bob" = none) := by
  constructor
  · exact (C7_cleanup_behaviour [] (fun _ _ => ⟨0, "", ""⟩) "ghost").1 (by decide)
  · have h := (C7_cleanup_behaviour [("webtop_bob", [("a.yml", FileContent.bytes [])])]
      (fun _ _ => ⟨1, "", "err"⟩) "bob").2.1 [("a.yml", FileContent.bytes [])] (by decide)
    exact ⟨h.1, h.2.2⟩

/-- Claim C9: `list` answers one entry per upload-root directory whose name
starts with `webtop_`, with `count` equal to the number of entries returned
(the per-entry identity is the directory name with the prefix removed);
in particular on an empty registry root it answers an empty array and
count 0. -/
theorem C9_list_behaviour (fs : FS) (dockerPs : DockerPsOracle) :
    ((list_webtops fs dockerPs).webtops.length =
      (fs.filter (fun e => strStarts "webtop_" e.1)).length) ∧
    ((list_webtops fs dockerPs).count = (list_webtops fs dockerPs).webtops.length) ∧
    ((list_webtops fs dockerPs).webtops.map (fun w => w.webtop_id) =
      (fs.filter (fun e => strStarts "webtop_" e.1)).map
        (fun e => e.1.replace "webtop_" "")) ∧
    ((list_webtops [] dockerPs).webtops = [] ∧ (list_webtops [] dockerPs).count = 0) := by
  refine ⟨?_, rfl, ?_, rfl, rfl⟩
  · unfold list_webtops
    simp only [List.length_map]
  · unfold list_webtops
    simp only [List.map_map]
    rfl

/-- The scenario manifest of the spec: `container_name: webtop-ubuntu-xfce-bob`
followed by the quoted port mapping `- "3030:3000"`, uploaded with no
explicit filename, no build files and no resources. -/
def c1Request : DeployRequest :=
  ⟨⟨none, asciiBytes "container_name: webtop-ubuntu-xfce-bob\n    - \"3030:3000\""⟩, [], []⟩

set_option maxRecDepth 8000 in
/-- Claim C1 (evaluation at the scenario input, exhibiting the divergence):
deploying the scenario manifest yields identity `bob`, saved manifest name
`docker-compose.yaml`, empty dockerfile and resource lists, and a script
consisting of the header plus the bring-up block only (no build invocation,
exactly one bring-up invocation) — but the reported port is `none`, not 3030:
the regex `-\s*(\d+):3000` cannot match the quoted mapping `- "3030:3000"`
because the quote stands between the whitespace run and the digits. -/
theorem C1_scenario_evaluation :
    ((deploy_webtop [] c1Request).resp.webtop_id = "bob") ∧
    ((deploy_webtop [] c1Request).resp.port = none) ∧
    ((deploy_webtop [] c1Request).resp.files.dockerfiles = []) ∧
    ((deploy_webtop [] c1Request).resp.files.resources = []) ∧
    ((deploy_webtop [] c1Request).resp.files.yaml = "docker-compose.yaml") ∧
    ((deploy_webtop [] c1Request).script =
      String.join (runScriptWrites "bob" "/opt/webtops/uploads/webtop_bob"
        "docker-compose.yaml" [])) ∧
    ((runScriptWrites "bob" "/opt/webtops/uploads/webtop_bob" "docker-compose.yaml"
        []).filter fragIsBuildCmd = []) ∧
    ((runScriptWrites "bob" "/opt/webtops/uploads/webtop_bob" "docker-compose.yaml"
        []).filter fragIsComposeCmd = ["docker compose -f docker-compose.yaml up -d\n"]) := by
  refine ⟨by decide, by decide, by decide, by decide, by decide, by decide, rfl, rfl⟩

theorem joinPath_secure (w s0 : String) :
    ∃ n, joinPath w (secure_filename s0) = w ++ "/" ++ n ∧
      (∀ c ∈ n.data, c ≠ '/') ∧ n ≠ "." ∧ n ≠ ".." := by
  obtain ⟨h1, h2, h3⟩ := secure_filename_safe s0
  exact ⟨secure_filename s0, joinPath_no_slash h1, h1, h2, h3⟩

theorem joinPath_runsh (w : String) :
    ∃ n, joinPath w "run.sh" = w ++ "/" ++ n ∧
      (∀ c ∈ n.data, c ≠ '/') ∧ n ≠ "." ∧ n ≠ ".." := by
  refine ⟨"run.sh", joinPath_no_slash (by decide), by decide, by decide, by decide⟩

/-- Claim C8: every artifact a deploy saves (the manifest, every build file,
every resource file, and the generated `run.sh`) is written at the workload
directory joined with a sanitized name that contains no path separator and is
not a traversal component — so no request-supplied filename can place a write
outside the workload directory. -/
theorem C8_path_safety (fs : FS) (req : DeployRequest) :
    ∀ p ∈ (deploy_webtop fs req).savedPaths,
      ∃ n, p = (deploy_webtop fs req).resp.webtop_dir ++ "/" ++ n ∧
        (∀ c ∈ n.data, c ≠ '/') ∧ n ≠ "." ∧ n ≠ ".." := by
  intro p hp
  have hsp : (deploy_webtop fs req).savedPaths =
      joinPath (joinPath UPLOAD_DIR
          ("webtop_" ++ idOrDefault (extract_user_from_yaml req.compose.content)))
        (secure_filename (filenameOr req.compose.filename "docker-compose.yaml")) ::
      ((savedDockerfileNames req.dockerfiles).map
          (joinPath (joinPath UPLOAD_DIR
            ("webtop_" ++ idOrDefault (extract_user_from_yaml req.compose.content)))) ++
        (savedResourceNames req.resources).map
          (joinPath (joinPath UPLOAD_DIR
            ("webtop_" ++ idOrDefault (extract_user_from_yaml req.compose.content)))) ++
        [joinPath (joinPath UPLOAD_DIR
            ("webtop_" ++ idOrDefault (extract_user_from_yaml req.compose.content)))
          "run.sh"]) := rfl
  have hwd : (deploy_webtop fs req).resp.webtop_dir =
      joinPath UPLOAD_DIR
        ("webtop_" ++ idOrDefault (extract_user_from_yaml req.compose.content)) := rfl
  rw [hsp] at hp
  rw [hwd]
  rcases List.mem_cons.mp hp with rfl | hp2
  · exact joinPath_secure _ _
  · rcases List.mem_append.mp hp2 with hp3 | hp4
    · rcases List.mem_append.mp hp3 with hdn | hrn
      · obtain ⟨m, hm, rfl⟩ := List.mem_map.mp hdn
        obtain ⟨q, -, rfl⟩ := List.mem_map.mp hm
        exact joinPath_secure _ _
      · obtain ⟨m, hm, rfl⟩ := List.mem_map.mp hrn
        obtain ⟨q, -, rfl⟩ := List.mem_map.mp hm
        exact joinPath_secure _ _
    · rw [List.mem_singleton.mp hp4]
      exact joinPath_runsh _

/-- A deploy request carrying a path-traversal build-file name. -/
def c8Request : DeployRequest :=
  ⟨⟨none, asciiBytes ""⟩, [⟨some "../../etc/passwd", [1]⟩], []⟩

theorem C8_path_safety_witness :
    ∃ n, ("/opt/webtops/uploads/webtop_default_user/etc_passwd" : String) =
      (deploy_webtop [] c8Request).resp.webtop_dir ++ "/" ++ n ∧
      (∀ c ∈ n.data, c ≠ '/') ∧ n ≠ "." ∧ n ≠ ".." :=
  C8_path_safety [] c8Request
    "/opt/webtops/uploads/webtop_default_user/etc_passwd" (by decide)
